import Mathlib

/-!
Shallow embedding of the compliance-scan core of the credit-report dashboard:
the CRC knowledge integrator (crc-knowledge-integration.ts), the compliance
resource validator (compliance-resource-validator.ts) and the scan
orchestration of the route module (performAiScan, generateStaticViolations,
registerRoutes).

Modelling conventions, used throughout:

* A credit item is a record of string fields.  The empty string models a
  field that is absent or empty; every guard in the sources reads fields
  through JS truthiness (absent and empty string are both falsy) or through
  strict equality against non-empty literals, so the two cases are
  indistinguishable to the translated code.
* JS numbers produced by parseInt / parseFloat are `Option Int` / `Option ℚ`
  with `none` playing NaN; every `<` / `>` comparison involving NaN is false.
* The `new Date()` thresholds (seven years ago, two years ago, six months
  ago) are derived from the wall clock in the source; they enter the
  embedding as an explicit `Clock` parameter, so age-dependent rules are
  functions of the evaluation time as the specification demands.
* Mutable `push` accumulation is modelled as list concatenation in source
  order; per-item mutable counters are modelled as per-item flags that are
  counted afterwards.
* `Array.prototype.sort` with a consistent comparator is stable by the
  ECMAScript specification, and a stable sort with respect to the total
  preorder induced by the comparator is unique; it is modelled with
  `List.insertionSort`, which Mathlib proves to be such a stable sort.
-/

/-! ### JS string and number primitives -/

/-- Characters treated as whitespace by JS trimming and parseInt. -/
def jsWhitespaceChar (c : Char) : Bool :=
  c == ' ' || c == '\t' || c == '\n' || c == '\r' || c == '\x0b' || c == '\x0c'

/-- Trim of a character list on both ends. -/
def trimCharList (l : List Char) : List Char :=
  ((l.dropWhile jsWhitespaceChar).reverse.dropWhile jsWhitespaceChar).reverse

/-- Model of String.prototype.trim. -/
def jsTrim (s : String) : String := String.mk (trimCharList s.data)

/-- Tests whether the second list is a leading run of the first. -/
def charListStartsWith : List Char → List Char → Bool
  | _, [] => true
  | [], _ :: _ => false
  | c :: cs, d :: ds => c == d && charListStartsWith cs ds

/-- Tests whether the needle occurs contiguously inside the haystack. -/
def charListHasSub : List Char → List Char → Bool
  | [], needle => charListStartsWith [] needle
  | c :: t, needle => charListStartsWith (c :: t) needle || charListHasSub t needle

/-- Model of String.prototype.includes. -/
def jsIncludes (s sub : String) : Bool := charListHasSub s.data sub.data

/-- Model of String.prototype.startsWith. -/
def jsStartsWith (s pre : String) : Bool := charListStartsWith s.data pre.data

/-- Truthiness of a string-valued JS field ("" models absent or empty). -/
def jsTruthy (s : String) : Bool := !(s == "")

/-- Model of the JS expression `a || b` on string fields. -/
def jsOr (a b : String) : String := if jsTruthy a then a else b

/-- Model of `a || b` where `a` is an optional field of a result object. -/
def jsOrOpt (a : Option String) (b : String) : String :=
  match a with
  | none => b
  | some s => jsOr s b

/-- ASCII lowering of one character; String.prototype.toLowerCase restricted
to the ASCII range, which covers every comparison made by the sources. -/
def asciiToLowerChar (c : Char) : Char :=
  if 'A' ≤ c ∧ c ≤ 'Z' then Char.ofNat (c.toNat + 32) else c

/-- Model of String.prototype.toLowerCase. -/
def jsToLower (s : String) : String := String.mk (s.data.map asciiToLowerChar)

/-- Numeric value of a decimal digit character. -/
def digitVal (c : Char) : Nat := c.toNat - '0'.toNat

/-- Maximal leading run of decimal digits. -/
def takeDigits (l : List Char) : List Char := l.takeWhile Char.isDigit

/-- Value of a digit run, most significant first. -/
def digitsToNat : List Char → Nat → Nat
  | [], acc => acc
  | c :: cs, acc => digitsToNat cs (acc * 10 + digitVal c)

/-- Model of JS parseInt (radix 10) on the shapes that occur in this code
base: optional leading whitespace, an optional sign, then a maximal run of
decimal digits; `none` models NaN (no digits found). -/
def parseIntJS (s : String) : Option Int :=
  let l := s.data.dropWhile jsWhitespaceChar
  match l with
  | '-' :: rest =>
    if (takeDigits rest).isEmpty then none
    else some (-(digitsToNat (takeDigits rest) 0 : Int))
  | '+' :: rest =>
    if (takeDigits rest).isEmpty then none
    else some (digitsToNat (takeDigits rest) 0 : Int)
  | _ =>
    if (takeDigits l).isEmpty then none
    else some (digitsToNat (takeDigits l) 0 : Int)

/-- JS `>` on numbers that may be NaN: any comparison with NaN is false. -/
def nanGt (a b : Option Int) : Bool :=
  match a, b with
  | some x, some y => decide (x > y)
  | _, _ => false

/-- Model of JS parseFloat on the shapes that occur in this code base:
optional whitespace and sign, integer digits, an optional fraction.  `none`
models NaN. -/
def parseFloatJS (s : String) : Option ℚ :=
  let core : List Char → Bool → Option ℚ := fun l neg =>
    let ip := takeDigits l
    let rest := l.dropWhile Char.isDigit
    let fp : List Char :=
      match rest with
      | '.' :: r => takeDigits r
      | _ => []
    if ip.isEmpty ∧ fp.isEmpty then none
    else
      let v : ℚ := (digitsToNat ip 0 : ℚ) + (digitsToNat fp 0 : ℚ) / ((10 : ℚ) ^ fp.length)
      some (if neg then -v else v)
  let l := s.data.dropWhile jsWhitespaceChar
  match l with
  | '-' :: rest => core rest true
  | '+' :: rest => core rest false
  | _ => core l false

/-- JS `x > 0` where `x` may be NaN. -/
def nanGtZeroQ (a : Option ℚ) : Bool :=
  match a with
  | some x => decide (x > 0)
  | none => false

/-- Model of `new Date(s)`: an ISO-like YYYY-MM-DD string yields a valid
date, every other string occurring here yields an Invalid Date whose time
value is NaN (`none`).  Valid dates are encoded on an abstract timeline that
is strictly increasing in (year, month, day); only order matters to the
rules. -/
def parseDateJS (s : String) : Option Int :=
  match s.data with
  | [y1, y2, y3, y4, '-', m1, m2, '-', d1, d2] =>
    if [y1, y2, y3, y4, m1, m2, d1, d2].all Char.isDigit then
      some ((digitsToNat [y1, y2, y3, y4] 0 : Int) * 372 +
            (digitsToNat [m1, m2] 0 : Int) * 31 + (digitsToNat [d1, d2] 0 : Int))
    else none
  | _ => none

/-- JS `<` between a possibly invalid date and a threshold date. -/
def dateLt (a : Option Int) (b : Int) : Bool :=
  match a with
  | some x => decide (x < b)
  | none => false

/-- JS `>` between a possibly invalid date and a threshold date. -/
def dateGt (a : Option Int) (b : Int) : Bool :=
  match a with
  | some x => decide (x > b)
  | none => false

/-- Token counting of the route module: Math.ceil(text.length / 4).  Every
string in this development lies in the basic multilingual plane, so the JS
length (UTF-16 units) equals the character count. -/
def countTokens (text : String) : Nat := (text.data.length + 3) / 4

/-- Model of String(n).padStart(3, c) as used for positional item ids. -/
def padStart3 (s : String) : String :=
  if s.data.length ≥ 3 then s else String.mk (List.replicate (3 - s.data.length) '0') ++ s

/-- JSON escaping of one character (the characters relevant here). -/
def jsonEscapeChar (c : Char) : List Char :=
  if c == '"' then ['\\', '"']
  else if c == '\\' then ['\\', '\\']
  else if c == '\n' then ['\\', 'n']
  else if c == '\t' then ['\\', 't']
  else if c == '\r' then ['\\', 'r']
  else [c]

/-- JSON escaping of a string body. -/
def jsonEscape (s : String) : String := String.mk (s.data.flatMap jsonEscapeChar)

/-- A JSON string literal. -/
def jsonQuote (s : String) : String := "\"" ++ jsonEscape s ++ "\""

/-- Comma-joined concatenation. -/
def commaJoin : List String → String
  | [] => ""
  | [x] => x
  | x :: y :: xs => x ++ "," ++ commaJoin (y :: xs)

/-- JSON.stringify of an object all of whose values are strings, with the
fields in insertion order. -/
def jsonObjOfFields (fields : List (String × String)) : String :=
  "\x7b" ++ commaJoin (fields.map (fun p => jsonQuote p.1 ++ ":" ++ jsonQuote p.2)) ++ "\x7d"

/-- JSON.stringify of an array given the serialized elements. -/
def jsonArrOf (elems : List String) : String := "[" ++ commaJoin elems ++ "]"

/-- Assignment `obj[k] = v` on a JS object modelled as an association list in
key-insertion order: an existing key keeps its position, a new key is
appended. -/
def objSet {α : Type} (m : List (String × α)) (k : String) (v : α) : List (String × α) :=
  if m.any (fun p => p.1 == k) then m.map (fun p => if p.1 == k then (k, v) else p)
  else m ++ [(k, v)]

/-- Lookup `obj[k]` on the association-list model of a JS object. -/
def objGet {α : Type} (m : List (String × α)) (k : String) : Option α :=
  (m.find? (fun p => p.1 == k)).map Prod.snd

/-! ### Data model

Credit items as consumed by the validator and the orchestrator.  Each field
is annotated with the JS property it models; producing code stores the
attribute-prefixed keys, while the CRC integrator reads distinct unprefixed
keys, so both groups appear as separate fields. -/

/-- The evaluation-time thresholds that the source computes from `new
Date()`: setFullYear(-7), setFullYear(-2) and setMonth(-6) respectively, on
the same timeline encoding as `parseDateJS`. -/
structure Clock where
  sevenYearsAgo : Int
  twoYearsAgo : Int
  sixMonthsAgo : Int
deriving DecidableEq

/-- One account (CREDIT_LIABILITY entry). -/
structure CreditAccount where
  creditLiabilityID : String        -- "@CreditLiabilityID"
  accountNumber : String            -- "@_AccountNumber"
  subscriberCode : String           -- "@_SubscriberCode"
  derogatoryDataIndicator : String  -- "@_DerogatoryDataIndicator"
  dateOfFirstDelinquency : String   -- "@_DateOfFirstDelinquency"
  currentRatingCode : String        -- _CURRENT_RATING?.["@_Code"]
  accountStatus : String            -- "@_AccountStatus"
  termsDuration : String            -- "@_TermsDuration"
  currentBalance : String           -- "@_CurrentBalance"
  creditLimit : String              -- "@_CreditLimit"
  dateOpened : String               -- "@_DateOpened"
  isCollectionIndicator : String    -- "@IsCollectionIndicator"
  originalBalance : String          -- "@_OriginalBalance"
  isChargeoffIndicator : String     -- "@IsChargeoffIndicator"
  dateLastActivity : String         -- "@_DateLastActivity"
  accountType : String              -- "@_AccountType"
  accountStatusType : String        -- "@_AccountStatusType"
  creditorName : String             -- _CREDITOR?.["@_Name"]
  dateReported : String             -- "@_DateReported"
  dateClosed : String               -- "@_DateClosed"
  dateFirstDelinquency : String     -- "@_DateFirstDelinquency" (summary only)
  paymentHistory : String           -- "@_PaymentHistory"
  crcDerogatoryDataIndicator : String -- DerogatoryDataIndicator (unprefixed, CRC integrator)
  crcIsChargeoffIndicator : String  -- IsChargeoffIndicator (unprefixed)
  crcIsCollectionIndicator : String -- IsCollectionIndicator (unprefixed)
  crcPastDueAmount : String         -- PastDueAmount
  crcDateOfFirstDelinquency : String -- DateOfFirstDelinquency (unprefixed)
  crcAccountType : String           -- AccountType
  crcCreditorName : String          -- CreditorName
deriving DecidableEq, Inhabited

/-- One public record (PUBLIC_RECORD entry). -/
structure PublicRecord where
  recordKey : String                -- "@RecordKey"
  creditLiabilityID : String        -- "@CreditLiabilityID"
  subscriberCode : String           -- "@_SubscriberCode"
  dateReported : String             -- "@_DateReported"
  dateFiled : String                -- "@_DateFiled"
  filingDate : String               -- filingDate
  complianceConditionCode : String  -- "@_ComplianceConditionCode"
  publicRecordTypeAttr : String     -- "@_PublicRecordType"
  publicRecordTypeAlt : String      -- "@publicRecordType"
  publicRecordStatus : String       -- "@_PublicRecordStatus"
  statusAlt : String                -- status
  publicRecordAmount : String       -- "@_PublicRecordAmount"
  amountAttr : String               -- "@_Amount"
  court : String                    -- "@_Court"
  courtName : String                -- "@courtName"
  accountIdentifier : String        -- "@_AccountIdentifier"
deriving DecidableEq, Inhabited

/-- One inquiry (INQUIRY entry). -/
structure Inquiry where
  inquiryKey : String               -- "@InquiryKey"
  inquiryKeyAttr : String           -- "@_InquiryKey"
  inquiryIdentifier : String        -- "@_InquiryIdentifier"
  dateOfInquiry : String            -- "@_DateOfInquiry"
  inquiryPurpose : String           -- "@_InquiryPurpose"
  subscriberName : String           -- "@_SubscriberName"
  dateReported : String             -- "@_DateReported"
  dateAttr : String                 -- "@_Date"
  inquiryType : String              -- "@_InquiryType"
  typeAttr : String                 -- "@_Type"
  inquiryPurposeType : String       -- "@_InquiryPurposeType"
deriving DecidableEq, Inhabited

/-- The pre-filtered report slice posted to the scan endpoint. -/
structure CreditData where
  creditLiability : List CreditAccount        -- CREDIT_LIABILITY
  publicRecord : List PublicRecord            -- PUBLIC_RECORD
  inquiry : List Inquiry                      -- INQUIRY
  creditResponsePublicRecord : List PublicRecord -- CREDIT_RESPONSE?.PUBLIC_RECORD
deriving DecidableEq, Inhabited

/-- A violation statement as validated against the ingested resources.  The
source object has optional `page` and `section` properties; "" models their
absence, and `section` is renamed because it is a Lean keyword. -/
structure ValidatedViolation where
  violation : String
  source : String
  page : String
  sectionRef : String
  isValidated : Bool
deriving DecidableEq

/-- Result shape of the compliance resource validator. -/
structure ComplianceValidationResult where
  violations : List ValidatedViolation
  suggestions : List String
  hasViolations : Bool
  noViolationMessage : Option String
deriving DecidableEq

/-! ### CRC knowledge integrator (crc-knowledge-integration.ts) -/

def crcDerogViolationText : String :=
  "Metro 2 Violation: Inaccurate derogatory data indicator - CRC Furnisher Framework indicates direct furnisher pressure required [Field 04]"

def crcChargeoffViolationText : String :=
  "Metro 2 Violation: Charge-off reporting without proper validation - CRC Advanced Disputing shows charge-offs don\x27t mean debt forgiveness [Field 06]"

def crcCollectionViolationText : String :=
  "Metro 2 Violation: Collection reporting without FDCPA compliance - CRC knowledge requires 3rd party collector validation [Field 07]"

def crcPastDueViolationText : String :=
  "FCRA Violation: Inaccurate past due amount reporting without proper verification [FCRA ยง 623(a)] - CRC Basic Course shows payment history is 35% of credit score"

def crcDofdViolationText : String :=
  "FCRA Violation: Disputed date of first delinquency requires reinvestigation [FCRA ยง 611] - CRC Advanced Letters show 30-day reinvestigation requirement under 15 U.S.C. Sec. 1681i(a)"

def crcCollectionValidationText : String :=
  "FDCPA Violation: Collection account lacks proper debt validation - CRC Workbook shows validation demand rights under 15 USC 1692g Sec. 809 (8)"

def crcCollectionEstoppelText : String :=
  "FDCPA Violation: Continued reporting of disputed debt without validation - CRC Advanced Letters show estoppel by silence strategy applies"

/-- CRCKnowledgeIntegrator.generateCRCViolations: the sequence of pushes in
source order.  Note that this function reads the unprefixed field names. -/
def generateCRCViolations (a : CreditAccount) : List String :=
  (if a.crcDerogatoryDataIndicator = "Y" then [crcDerogViolationText] else []) ++
  (if a.crcIsChargeoffIndicator = "Y" then [crcChargeoffViolationText] else []) ++
  (if a.crcIsCollectionIndicator = "Y" then [crcCollectionViolationText] else []) ++
  (if jsTruthy a.crcPastDueAmount = true ∧ nanGtZeroQ (parseFloatJS a.crcPastDueAmount) = true
   then [crcPastDueViolationText] else []) ++
  (if jsTruthy a.crcDateOfFirstDelinquency = true then [crcDofdViolationText] else []) ++
  (if a.crcAccountType = "Collection" ∨ a.crcIsCollectionIndicator = "Y"
   then [crcCollectionValidationText, crcCollectionEstoppelText] else [])

/-- CRCKnowledgeIntegrator.generateSourceCitation. -/
def generateSourceCitation (violationType : String) : String :=
  if jsIncludes violationType "Metro 2" = true then
    "Source: CRC Advanced Disputing Workbook, Page 3-46"
  else if jsIncludes violationType "FCRA" = true then
    "Source: CRC Basic Disputing Course, Page 1-15"
  else if jsIncludes violationType "FDCPA" = true then
    "Source: CRC Top 10 Advanced Dispute Letters, Page 1-292"
  else "Source: CRC Advanced Disputing Workbook, Page 3-46"

/-- CRCKnowledgeIntegrator.generateCRCDisputes. -/
def generateCRCDisputes (a : CreditAccount) : List String :=
  (if a.crcDerogatoryDataIndicator = "Y" then
    ["Apply CRC Furnisher Framework: Send Round 1 dispute letter directly to furnisher, then escalate with warning letter if verified"] else []) ++
  (if a.crcIsCollectionIndicator = "Y" then
    ["Use CRC Advanced Strategy: Demand debt validation under FDCPA, then apply estoppel by silence if no response within 30 days"] else []) ++
  (if a.crcIsChargeoffIndicator = "Y" then
    ["Implement CRC Charge-off Strategy: Challenge verification methods and apply maximum pressure to both bureau and furnisher"] else []) ++
  (if jsTruthy a.crcPastDueAmount = true ∧ nanGtZeroQ (parseFloatJS a.crcPastDueAmount) = true then
    ["Apply CRC Late Payment Strategy: Dispute payment history accuracy and request method of verification from furnisher"] else []) ++
  (if a.crcAccountType = "Medical" ∨ jsIncludes (jsToLower a.crcCreditorName) "medical" = true then
    ["Use CRC HIPAA Strategy: Request medical debt validation using HIPAA laws for specialized medical collection removal"] else [])

/-! ### Compliance resource validator: rule parts

Each `push` site of the validator becomes one list-valued part; the validator
functions are the concatenations of their parts in source order. -/

def NO_VIOLATION_MESSAGE : String :=
  "No Metro 2 / FCRA / FDCPA violation detected for this item."

def metro2MissingDofdText : String :=
  "Metro 2 Violation: Missing Date of First Delinquency [Field 30] - Required for accounts 180+ days delinquent"

def metro2StatusInconsistentText : String :=
  "Metro 2 Violation: Account Status inconsistent with Payment Rating [Field 13] - Closed status conflicts with delinquent payment code"

def metro2TermsDurationText : String :=
  "Metro 2 Violation: Invalid Terms Duration format [Field 16] - Must be 3 digits, zero-filled"

def metro2BalanceExceedsLimitText : String :=
  "Metro 2 Violation: Current Balance exceeds Credit Limit [Field 06] - Balance cannot exceed established credit limit"

def fcraOutdatedAccountText : String :=
  "FCRA Violation: Outdated negative account - accounts older than 7 years violate FCRA § 605(a)(4)"

def fcraBankruptcyText : String :=
  "FCRA Violation: Bankruptcy discharge inaccuracies - discharged debts showing positive balance violate FCRA § 605(a)(1)"

def fcraDuplicateText : String :=
  "FCRA Violation: Potential duplicate account - same account reported multiple times violates FCRA § 623(a)(1)(B)"

def fdcpaMisrepresentText : String :=
  "FDCPA Violation: Misrepresenting the amount owed - collection balance exceeds original debt violates FDCPA § 807(2)(A)"

def fdcpaChargeoffActivityText : String :=
  "FDCPA Violation: Continued collection activity on charged-off debt without proper validation violates FDCPA § 809(b)"

def fcraOutdatedRecordText : String :=
  "FCRA Violation: Outdated public record - records older than 7 years violate FCRA § 605(a)(4)"

def metro2MissingComplianceCodeText : String :=
  "Metro 2 Violation: Missing Compliance Condition Code [Field 33] - Required for all public records"

def fcraOutdatedInquiryText : String :=
  "FCRA Violation: Outdated inquiry - inquiries older than 2 years violate FCRA § 605(a)(7)"

def metro2MissingInquiryPurposeText : String :=
  "Metro 2 Violation: Missing Inquiry Purpose [Field 11] - Required for all credit inquiries"

/-- Wrapping of a CRC violation string pushed by the validator. -/
def crcToValidated (v : String) : ValidatedViolation :=
  ⟨v, generateSourceCitation v, "", "", true⟩

def metro2CrcPart (a : CreditAccount) : List ValidatedViolation :=
  ((generateCRCViolations a).filter (fun v => jsIncludes v "Metro 2")).map crcToValidated

def metro2DofdPart (a : CreditAccount) : List ValidatedViolation :=
  if a.derogatoryDataIndicator = "Y" ∧ jsTruthy a.dateOfFirstDelinquency = false then
    [⟨metro2MissingDofdText, "CRC Advanced Disputing Workbook, Page 3-46", "Section 4.2.1", "", true⟩]
  else []

def metro2RatingStatusPart (a : CreditAccount) : List ValidatedViolation :=
  if jsTruthy a.currentRatingCode = true ∧
     a.currentRatingCode ∈ (["2", "3", "4", "5", "6", "7", "8", "9"] : List String) ∧
     (a.accountStatus = "11" ∨ a.accountStatus = "13" ∨ a.accountStatus = "61") then
    [⟨metro2StatusInconsistentText, "Credit Reporting Resource Guide 2020", "Section 3.1.4", "", true⟩]
  else []

def metro2TermsPart (a : CreditAccount) : List ValidatedViolation :=
  if jsTruthy a.termsDuration = true ∧
     (a.termsDuration.data.length ≠ 3 ∨ parseIntJS a.termsDuration = none) then
    [⟨metro2TermsDurationText, "Credit Reporting Resource Guide 2020", "Section 2.3.7", "", true⟩]
  else []

def metro2BalancePart (a : CreditAccount) : List ValidatedViolation :=
  if nanGt (parseIntJS (jsOr a.creditLimit "0")) (some 0) = true ∧
     nanGt (parseIntJS (jsOr a.currentBalance "0")) (parseIntJS (jsOr a.creditLimit "0")) = true then
    [⟨metro2BalanceExceedsLimitText, "Credit Reporting Resource Guide 2020", "Section 2.2.3", "", true⟩]
  else []

/-- ComplianceResourceValidator.validateMetro2Violations. -/
def validateMetro2Violations (a : CreditAccount) : List ValidatedViolation :=
  metro2CrcPart a ++ metro2DofdPart a ++ metro2RatingStatusPart a ++
    metro2TermsPart a ++ metro2BalancePart a

def fcraCrcPart (a : CreditAccount) : List ValidatedViolation :=
  ((generateCRCViolations a).filter (fun v => jsIncludes v "FCRA")).map crcToValidated

def fcraOutdatedPart (a : CreditAccount) (clock : Clock) : List ValidatedViolation :=
  if jsTruthy a.dateOpened = true ∧
     dateLt (parseDateJS a.dateOpened) clock.sevenYearsAgo = true ∧
     a.derogatoryDataIndicator = "Y" then
    [⟨fcraOutdatedAccountText, "CRC Basic Disputing Course, Page 1-15", "Page 3", "Violation #1", true⟩]
  else []

def fcraBankruptcyPart (a : CreditAccount) : List ValidatedViolation :=
  if (a.accountStatus = "61" ∨ a.accountStatus = "62") ∧
     nanGt (parseIntJS (jsOr a.currentBalance "0")) (some 0) = true then
    [⟨fcraBankruptcyText, "FCRA Top 10 Violations Guide", "Page 4", "Violation #2", true⟩]
  else []

def fcraDuplicatePart (a : CreditAccount) : List ValidatedViolation :=
  if jsTruthy a.accountNumber = true ∧ jsTruthy a.subscriberCode = true then
    [⟨fcraDuplicateText, "FCRA Top 10 Violations Guide", "Page 5", "Violation #3", true⟩]
  else []

/-- ComplianceResourceValidator.validateFCRAViolations. -/
def validateFCRAViolations (a : CreditAccount) (clock : Clock) : List ValidatedViolation :=
  fcraCrcPart a ++ fcraOutdatedPart a clock ++ fcraBankruptcyPart a ++ fcraDuplicatePart a

def fdcpaCrcPart (a : CreditAccount) : List ValidatedViolation :=
  ((generateCRCViolations a).filter (fun v => jsIncludes v "FDCPA")).map crcToValidated

def fdcpaCollectionPart (a : CreditAccount) : List ValidatedViolation :=
  if (a.isCollectionIndicator = "Y" ∨ a.isCollectionIndicator = "true") ∧
     nanGt (parseIntJS (jsOr a.currentBalance "0")) (parseIntJS (jsOr a.originalBalance "0")) = true then
    [⟨fdcpaMisrepresentText, "CRC Top 10 Advanced Dispute Letters, Page 1-292", "Page 12", "Section 807 Violations", true⟩]
  else []

def fdcpaChargeoffPart (a : CreditAccount) (clock : Clock) : List ValidatedViolation :=
  if (a.isChargeoffIndicator = "Y" ∨ a.isChargeoffIndicator = "true") ∧
     jsTruthy a.dateLastActivity = true ∧
     dateGt (parseDateJS a.dateLastActivity) clock.sixMonthsAgo = true then
    [⟨fdcpaChargeoffActivityText, "FDCPA Guide", "Page 15", "Section 809 Violations", true⟩]
  else []

/-- ComplianceResourceValidator.validateFDCPAViolations. -/
def validateFDCPAViolations (a : CreditAccount) (clock : Clock) : List ValidatedViolation :=
  fdcpaCrcPart a ++ fdcpaCollectionPart a ++ fdcpaChargeoffPart a clock

def recordOutdatedPart (r : PublicRecord) (clock : Clock) : List ValidatedViolation :=
  if jsTruthy (jsOr r.dateReported r.dateFiled) = true ∧
     dateLt (parseDateJS (jsOr r.dateReported r.dateFiled)) clock.sevenYearsAgo = true then
    [⟨fcraOutdatedRecordText, "FCRA Top 10 Violations Guide", "Page 8", "Violation #6", true⟩]
  else []

def recordCompliancePart (r : PublicRecord) : List ValidatedViolation :=
  if jsTruthy r.complianceConditionCode = false then
    [⟨metro2MissingComplianceCodeText, "Credit Reporting Resource Guide 2020", "Section 5.1.2", "", true⟩]
  else []

def inquiryOutdatedPart (q : Inquiry) (clock : Clock) : List ValidatedViolation :=
  if jsTruthy q.dateOfInquiry = true ∧
     dateLt (parseDateJS q.dateOfInquiry) clock.twoYearsAgo = true then
    [⟨fcraOutdatedInquiryText, "FCRA Top 10 Violations Guide", "Page 9", "Violation #7", true⟩]
  else []

def inquiryPurposePart (q : Inquiry) : List ValidatedViolation :=
  if jsTruthy q.inquiryPurpose = false then
    [⟨metro2MissingInquiryPurposeText, "Credit Reporting Resource Guide 2020", "Section 6.1.1", "", true⟩]
  else []

/-! ### Duplicate removal and category sort -/

/-- The duplicate-removal idiom of the validator,
`arr.filter((x, index, self) => index === self.findIndex(y => key y === key x))`,
translated with the element/index pairs of the filter callback explicit. -/
def jsFirstOccurrenceFilter {α : Type} (key : α → String) (orig : List α) :
    List (Nat × α) → List α
  | [] => []
  | (i, v) :: rest =>
    if orig.findIdx (fun y => key y == key v) = i then
      v :: jsFirstOccurrenceFilter key orig rest
    else jsFirstOccurrenceFilter key orig rest

/-- Duplicate removal keyed by `key`, as performed on the list itself. -/
def removeDupsByKey {α : Type} (key : α → String) (l : List α) : List α :=
  jsFirstOccurrenceFilter key l l.enum

/-- The category comparator shared by removeDuplicatesAndSort,
removeDuplicateSuggestions and the per-item sort of generateStaticViolations,
as a function of the six containment tests it performs: Metro 2 first, then
FCRA, then FDCPA. -/
def jsCompareBits (m1 f1 d1 m2 f2 d2 : Bool) : Int :=
  if m1 && !m2 then -1
  else if !m1 && m2 then 1
  else if f1 && !f2 then -1
  else if !f1 && f2 then 1
  else if d1 && !d2 then -1
  else if !d1 && d2 then 1
  else 0

/-- The comparator applied to two violation or suggestion strings. -/
def jsCompareStrings (a b : String) : Int :=
  jsCompareBits (jsIncludes a "Metro 2") (jsIncludes a "FCRA") (jsIncludes a "FDCPA")
    (jsIncludes b "Metro 2") (jsIncludes b "FCRA") (jsIncludes b "FDCPA")

/-- The total preorder induced by the comparator on violations. -/
def violLE (a b : ValidatedViolation) : Prop :=
  jsCompareStrings a.violation b.violation ≤ 0

/-- The total preorder induced by the comparator on plain strings. -/
def strLE (a b : String) : Prop := jsCompareStrings a b ≤ 0

instance : DecidableRel violLE := fun a b =>
  inferInstanceAs (Decidable (jsCompareStrings a.violation b.violation ≤ 0))

instance : DecidableRel strLE := fun a b =>
  inferInstanceAs (Decidable (jsCompareStrings a b ≤ 0))

theorem jsCompareBits_le_total : ∀ m1 f1 d1 m2 f2 d2 : Bool,
    jsCompareBits m1 f1 d1 m2 f2 d2 ≤ 0 ∨ jsCompareBits m2 f2 d2 m1 f1 d1 ≤ 0 := by decide

theorem jsCompareBits_le_trans : ∀ m1 f1 d1 m2 f2 d2 m3 f3 d3 : Bool,
    jsCompareBits m1 f1 d1 m2 f2 d2 ≤ 0 → jsCompareBits m2 f2 d2 m3 f3 d3 ≤ 0 →
    jsCompareBits m1 f1 d1 m3 f3 d3 ≤ 0 := by decide

instance : IsTotal ValidatedViolation violLE :=
  ⟨fun _ _ => jsCompareBits_le_total _ _ _ _ _ _⟩

instance : IsTrans ValidatedViolation violLE :=
  ⟨fun _ _ _ hab hbc => jsCompareBits_le_trans _ _ _ _ _ _ _ _ _ hab hbc⟩

instance : IsTotal String strLE :=
  ⟨fun _ _ => jsCompareBits_le_total _ _ _ _ _ _⟩

instance : IsTrans String strLE :=
  ⟨fun _ _ _ hab hbc => jsCompareBits_le_trans _ _ _ _ _ _ _ _ _ hab hbc⟩

/-- ComplianceResourceValidator.removeDuplicatesAndSort: trim-keyed duplicate
removal followed by the stable category sort. -/
def removeDuplicatesAndSort (violations : List ValidatedViolation) : List ValidatedViolation :=
  List.insertionSort violLE (removeDupsByKey (fun v => jsTrim v.violation) violations)

/-- ComplianceResourceValidator.removeDuplicateSuggestions. -/
def removeDuplicateSuggestions (suggestions : List String) : List String :=
  List.insertionSort strLE (removeDupsByKey jsTrim suggestions)

/-! ### Suggestion generator -/

def suggestDofdText : String :=
  "Apply CRC Furnisher Framework: Request verification of the Date of First Delinquency and supporting documentation for the reported delinquency period."

def suggestStatusText : String :=
  "Use CRC Advanced Strategy: Dispute the account status code and request alignment with the actual payment history and account standing."

def suggestOutdatedText : String :=
  "Implement CRC Basic Disputing: Request removal of outdated information that exceeds the legal reporting period under FCRA guidelines."

def suggestBankruptcyText : String :=
  "Apply CRC Advanced Letters: Dispute the positive balance and request zero balance reflecting the bankruptcy discharge status."

def suggestDuplicateText : String :=
  "Use CRC Warning Strategy: Request removal of duplicate account entries and consolidation of accurate account information."

def suggestMisrepText : String :=
  "Apply CRC Debt Validation: Dispute the inflated balance amount and request verification of the original debt amount under FDCPA § 809."

def suggestCollectionText : String :=
  "Implement CRC Collection Strategy: Demand debt validation under FDCPA, then apply estoppel by silence if no response within 30 days."

def suggestChargeoffText : String :=
  "Use CRC Charge-off Strategy: Challenge verification methods and apply maximum pressure to both bureau and furnisher."

/-- The else-if keyword chain of generateValidatedSuggestions for one
violation: at most one canned suggestion is appended per violation. -/
def suggestionFor (v : ValidatedViolation) : List String :=
  if jsIncludes v.violation "Date of First Delinquency" = true then [suggestDofdText]
  else if jsIncludes v.violation "Account Status inconsistent" = true then [suggestStatusText]
  else if jsIncludes v.violation "Outdated" = true then [suggestOutdatedText]
  else if jsIncludes v.violation "Bankruptcy discharge" = true then [suggestBankruptcyText]
  else if jsIncludes v.violation "Duplicate" = true then [suggestDuplicateText]
  else if jsIncludes v.violation "Misrepresenting the amount" = true then [suggestMisrepText]
  else if jsIncludes v.violation "Collection" = true then [suggestCollectionText]
  else if jsIncludes v.violation "Charge-off" = true then [suggestChargeoffText]
  else []

/-- ComplianceResourceValidator.generateValidatedSuggestions. -/
def generateValidatedSuggestions (violations : List ValidatedViolation) : List String :=
  violations.flatMap suggestionFor

/-! ### Result formatting and the validator entry points -/

/-- ComplianceResourceValidator.formatValidationResult. -/
def formatValidationResult (violations : List ValidatedViolation) : ComplianceValidationResult :=
  let sortedViolations := removeDuplicatesAndSort violations
  let hasViolations : Bool := decide (sortedViolations.length > 0)
  let suggestions := if hasViolations then generateValidatedSuggestions sortedViolations else []
  let sortedSuggestions := removeDuplicateSuggestions suggestions
  ⟨sortedViolations, sortedSuggestions, hasViolations,
    if hasViolations then none else some NO_VIOLATION_MESSAGE⟩

/-- ComplianceResourceValidator.validateAccount (also the legacy wrapper
validateAccountWithResources). -/
def validateAccount (a : CreditAccount) (clock : Clock) : ComplianceValidationResult :=
  formatValidationResult
    (validateMetro2Violations a ++ validateFCRAViolations a clock ++ validateFDCPAViolations a clock)

/-- ComplianceResourceValidator.validatePublicRecord (also the wrapper
validatePublicRecordWithResources). -/
def validatePublicRecord (r : PublicRecord) (clock : Clock) : ComplianceValidationResult :=
  formatValidationResult (recordOutdatedPart r clock ++ recordCompliancePart r)

/-- ComplianceResourceValidator.validateInquiry (also the wrapper
validateInquiryWithResources). -/
def validateInquiry (q : Inquiry) (clock : Clock) : ComplianceValidationResult :=
  formatValidationResult (inquiryOutdatedPart q clock ++ inquiryPurposePart q)

/-! ### Scan payload shapes -/

/-- The tokenInfo block of a scan response. -/
structure TokenInfo where
  inputTokens : Nat
  itemsAnalyzedWithAI : Nat
  itemsSkippedByTokens : Nat
  totalItemsProcessed : Nat
  fallbackUsed : Bool
deriving DecidableEq

/-- The breakdown block of a scan response. -/
structure ScanBreakdown where
  accounts : Nat
  publicRecords : Nat
  inquiries : Nat
deriving DecidableEq

/-- The success payload returned by performAiScan and
generateStaticViolations.  JS objects keyed by item id are association lists
in key-insertion order. -/
structure ScanPayload where
  success : Bool
  totalViolations : Nat
  affectedAccounts : Nat
  violations : List (String × List String)
  metro2Violations : List (String × List String)
  fcrFdcpaViolations : List (String × List String)
  suggestions : List (String × List String)
  breakdown : ScanBreakdown
  message : String
  tokenInfo : TokenInfo
deriving DecidableEq

/-! ### Static scan (generateStaticViolations, generateStaticSuggestions) -/

/-- Account id of the static path:
account["@CreditLiabilityID"] || TRADE + padded position. -/
def staticAccountId (a : CreditAccount) (index : Nat) : String :=
  jsOr a.creditLiabilityID ("TRADE" ++ padStart3 (Nat.repr (index + 1)))

/-- Public-record id of the static path:
record["@RecordKey"] || record["@CreditLiabilityID"] || PUBLIC-RECORD-padded. -/
def staticRecordId (r : PublicRecord) (index : Nat) : String :=
  jsOr r.recordKey (jsOr r.creditLiabilityID ("PUBLIC-RECORD-" ++ padStart3 (Nat.repr (index + 1))))

/-- Inquiry id of the static path:
inquiry["@InquiryKey"] || inquiry["@_InquiryKey"] || INQUIRY-padded. -/
def staticInquiryId (q : Inquiry) (index : Nat) : String :=
  jsOr q.inquiryKey (jsOr q.inquiryKeyAttr ("INQUIRY-" ++ padStart3 (Nat.repr (index + 1))))

/-- The violation formatting of the static path:
violation + " (Source: " + source (+ ", " + page when present) + ")". -/
def formatViolationWithSource (v : ValidatedViolation) : String :=
  v.violation ++ " (Source: " ++ v.source ++ (if jsTruthy v.page = true then ", " ++ v.page else "") ++ ")"

/-- The list the static scan records for one account before the per-item
dedup/sort: formatted validated violations, or the exact no-violation
sentinel when the validator found nothing. -/
def staticAccountViolationStrings (a : CreditAccount) (clock : Clock) : List String :=
  let validationResult := validateAccount a clock
  if validationResult.hasViolations = true then
    validationResult.violations.map formatViolationWithSource
  else [jsOrOpt validationResult.noViolationMessage NO_VIOLATION_MESSAGE]

/-- Static per-item list for one public record. -/
def staticRecordViolationStrings (r : PublicRecord) (clock : Clock) : List String :=
  let validationResult := validatePublicRecord r clock
  if validationResult.hasViolations = true then
    validationResult.violations.map formatViolationWithSource
  else [jsOrOpt validationResult.noViolationMessage NO_VIOLATION_MESSAGE]

/-- Static per-item list for one inquiry. -/
def staticInquiryViolationStrings (q : Inquiry) (clock : Clock) : List String :=
  let validationResult := validateInquiry q clock
  if validationResult.hasViolations = true then
    validationResult.violations.map formatViolationWithSource
  else [jsOrOpt validationResult.noViolationMessage NO_VIOLATION_MESSAGE]

/-- Model of `[...new Set(l)]` in generateStaticViolations: first occurrence
of each string by exact equality, in insertion order. -/
def jsSetDedup (l : List String) : List String := removeDupsByKey (fun s => s) l

/-- The per-item processing step of generateStaticViolations: Set-based
dedup followed by the stable category sort. -/
def staticItemProcessed (l : List String) : List String :=
  List.insertionSort strLE (jsSetDedup l)

/-- Suggestions recorded for one account by generateStaticSuggestions:
validator suggestions plus CRC dispute strategies, or the CRC-enhanced
fallback triple. -/
def staticAccountSuggestions (a : CreditAccount) (clock : Clock) : List String :=
  let validationResult := validateAccount a clock
  let crcSuggestions := generateCRCDisputes a
  let allSuggestions := validationResult.suggestions ++ crcSuggestions
  if allSuggestions.length > 0 then allSuggestions
  else
    ["Apply CRC Furnisher Framework: Send Round 1 dispute letter directly to furnisher with reason and instruction",
     "Use CRC Advanced Strategy: Demand debt validation under FDCPA § 809, then apply estoppel by silence if no response",
     "Implement CRC Maximum Pressure: Challenge verification methods and apply pressure to both bureau and furnisher"]

/-- Suggestions recorded for one public record by generateStaticSuggestions. -/
def staticRecordSuggestions (r : PublicRecord) (clock : Clock) : List String :=
  let validationResult := validatePublicRecord r clock
  if validationResult.suggestions.length > 0 then validationResult.suggestions
  else
    ["Verify public record authenticity under FCRA § 613 - request court documentation and filing verification",
     "Challenge reporting timeframe under FCRA § 605 - seven-year reporting limit for most public records",
     "Dispute record accuracy under FCRA § 623 - demand Metro 2 compliance for all public record fields"]

/-- Suggestions recorded for one inquiry by generateStaticSuggestions. -/
def staticInquirySuggestions (q : Inquiry) (clock : Clock) : List String :=
  let validationResult := validateInquiry q clock
  if validationResult.suggestions.length > 0 then validationResult.suggestions
  else
    ["Challenge inquiry authorization under FCRA § 604 - demand written permissible purpose documentation",
     "Dispute inquiry accuracy under FCRA § 623 - request Metro 2 compliance verification for inquiry fields",
     "Verify inquiry legitimacy under FDCPA § 807 - require proof of authorized access and business relationship"]

/-- generateStaticSuggestions from the route module: the suggestions object
built over accounts, then public records, then inquiries. -/
def generateStaticSuggestions (data : CreditData) (clock : Clock) : List (String × List String) :=
  let afterAccounts := data.creditLiability.enum.foldl
    (fun m p => objSet m (staticAccountId p.2 p.1) (staticAccountSuggestions p.2 clock)) []
  let afterRecords := data.publicRecord.enum.foldl
    (fun m p => objSet m (staticRecordId p.2 p.1) (staticRecordSuggestions p.2 clock)) afterAccounts
  data.inquiry.enum.foldl
    (fun m p => objSet m (staticInquiryId p.2 p.1) (staticInquirySuggestions p.2 clock)) afterRecords

/-- The raw violations object built by generateStaticViolations before its
per-item dedup/sort pass. -/
def staticRawViolationsObj (data : CreditData) (clock : Clock) : List (String × List String) :=
  let va := data.creditLiability.enum.foldl
    (fun m p => objSet m (staticAccountId p.2 p.1) (staticAccountViolationStrings p.2 clock)) []
  let vr := data.publicRecord.enum.foldl
    (fun m p => objSet m (staticRecordId p.2 p.1) (staticRecordViolationStrings p.2 clock)) va
  data.inquiry.enum.foldl
    (fun m p => objSet m (staticInquiryId p.2 p.1) (staticInquiryViolationStrings p.2 clock)) vr

/-- generateStaticViolations from the route module: the static-mode scan
payload. -/
def generateStaticViolations (data : CreditData) (clock : Clock) : ScanPayload :=
  let violations := staticRawViolationsObj data clock
  let processedViolations := violations.map (fun p => (p.1, staticItemProcessed p.2))
  let metro2Violations := processedViolations.map (fun p =>
    (p.1, ((p.2.filter (fun v => !(v == NO_VIOLATION_MESSAGE))).filter (fun v => jsIncludes v "Metro 2"))))
  let fcrFdcpaViolations := processedViolations.map (fun p =>
    (p.1, ((p.2.filter (fun v => !(v == NO_VIOLATION_MESSAGE))).filter
      (fun v => jsIncludes v "FCRA" || jsIncludes v "FDCPA"))))
  let totalViolations :=
    (((processedViolations.map Prod.snd).flatten).filter (fun v => !(v == NO_VIOLATION_MESSAGE))).length
  { success := true
    totalViolations := totalViolations
    affectedAccounts := violations.length
    violations := processedViolations
    metro2Violations := metro2Violations
    fcrFdcpaViolations := fcrFdcpaViolations
    suggestions := generateStaticSuggestions data clock
    breakdown := ⟨data.creditLiability.length, data.publicRecord.length, data.inquiry.length⟩
    message := "AI analysis completed: Found violations across " ++ Nat.repr data.creditLiability.length ++
      " accounts, " ++ Nat.repr data.publicRecord.length ++ " public records, and " ++
      Nat.repr data.inquiry.length ++ " inquiries"
    tokenInfo := ⟨0, 0, 0, violations.length, true⟩ }

/-! ### AI scan (performAiScan, processItemWithAI, processInBatches)

The external completion call is an oracle parameter: it receives the item
type (which selects the fixed type-specific system prompt) and the
serialized item summary, and returns either a failure (a thrown error), a
null content (`none`) or the response text.  Token-management constants are
those of the route module. -/

def MAX_INPUT_TOKENS : Nat := 100000

def MAX_TOKENS_RESPONSE : Nat := 1000

def TOKENS_PER_ACCOUNT_LIMIT : Nat := 1000

def MAX_CONCURRENT_REQUESTS : Nat := 5

/-- One element of allItemsToProcess: the item with its itemType tag and its
originalIndex (which for inquiries is also the inquiryIndex). -/
inductive TaggedItem where
  | account (a : CreditAccount) (originalIndex : Nat)
  | record (r : PublicRecord) (originalIndex : Nat)
  | inquiry (q : Inquiry) (originalIndex : Nat)
deriving DecidableEq

/-- The itemType tag of the source. -/
def itemTypeKey : TaggedItem → String
  | .account _ _ => "account"
  | .record _ _ => "public_record"
  | .inquiry _ _ => "inquiry"

/-- The combined work list of performAiScan: accounts, then public records,
then inquiries. -/
def allItemsToProcess (data : CreditData) : List TaggedItem :=
  data.creditLiability.enum.map (fun p => TaggedItem.account p.2 p.1) ++
  data.publicRecord.enum.map (fun p => TaggedItem.record p.2 p.1) ++
  data.inquiry.enum.map (fun p => TaggedItem.inquiry p.2 p.1)

/-- The item id derived inside processItemWithAI; `itemIndex` is the position
in the combined work list. -/
def aiItemId : TaggedItem → Nat → String
  | .account a _, itemIndex =>
    jsOr a.creditLiabilityID ("TRADE" ++ padStart3 (Nat.repr (itemIndex + 1)))
  | .record r _, itemIndex =>
    jsOr r.creditLiabilityID (jsOr r.subscriberCode ("record_" ++ Nat.repr itemIndex))
  | .inquiry q origIdx, _ =>
    jsOr q.inquiryIdentifier ("inquiry_" ++ Nat.repr origIdx)

/-- JSON.stringify of the type-specific item summary built by
processItemWithAI. -/
def itemSummaryText (item : TaggedItem) (itemIndex : Nat) : String :=
  let id := aiItemId item itemIndex
  match item with
  | .account a _ =>
    jsonObjOfFields
      [("id", id), ("creditor", jsOr a.creditorName "Unknown"),
       ("accountType", jsOr a.accountType "Unknown"),
       ("balance", jsOr a.currentBalance "0"),
       ("status", jsOr a.accountStatus (jsOr a.accountStatusType "Unknown")),
       ("dateOpened", jsOr a.dateOpened "Unknown"),
       ("dateReported", jsOr a.dateReported "Unknown"),
       ("dateClosed", jsOr a.dateClosed "Unknown"),
       ("derogatoryIndicator", jsOr a.derogatoryDataIndicator "N"),
       ("dateFirstDelinquency", jsOr a.dateFirstDelinquency "Unknown"),
       ("paymentHistory", jsOr a.paymentHistory "Unknown")]
  | .record r _ =>
    jsonObjOfFields
      [("id", id),
       ("type", jsOr r.publicRecordTypeAttr (jsOr r.publicRecordTypeAlt "Unknown")),
       ("status", jsOr r.publicRecordStatus (jsOr r.statusAlt "Unknown")),
       ("amount", jsOr r.publicRecordAmount (jsOr r.amountAttr "0")),
       ("dateFiled", jsOr r.dateFiled (jsOr r.filingDate "Unknown")),
       ("dateReported", jsOr r.dateReported "Unknown"),
       ("court", jsOr r.court (jsOr r.courtName "Unknown"))]
  | .inquiry q _ =>
    jsonObjOfFields
      [("id", id), ("subscriberName", jsOr q.subscriberName "Unknown"),
       ("dateReported", jsOr q.dateReported (jsOr q.dateAttr "Unknown")),
       ("inquiryType", jsOr q.inquiryType (jsOr q.typeAttr "Unknown")),
       ("purpose", jsOr q.inquiryPurposeType "Unknown")]

/-- Splitting a character list on a separator. -/
def splitCharsOn (sep : Char) : List Char → List (List Char)
  | [] => [[]]
  | c :: cs =>
    let r := splitCharsOn sep cs
    if c == sep then [] :: r
    else match r with
      | [] => [[c]]
      | h :: t => (c :: h) :: t

/-- Model of response.split of the orchestrator on the newline separator. -/
def jsSplitLines (s : String) : List String := (splitCharsOn '\n' s.data).map String.mk

/-- Replacement of the first occurrence of a pattern, as JS
String.prototype.replace with a string pattern. -/
def replaceFirstChars : List Char → List Char → List Char → List Char
  | [], pat, sub => if charListStartsWith [] pat then sub else []
  | c :: cs, pat, sub =>
    if charListStartsWith (c :: cs) pat then sub ++ (c :: cs).drop pat.length
    else c :: replaceFirstChars cs pat sub

/-- Model of String.prototype.replace with a string pattern. -/
def jsReplaceFirst (s pat sub : String) : String :=
  String.mk (replaceFirstChars s.data pat.data sub.data)

/-- The category-prefix fix-up the orchestrator applies to one response
line. -/
def lineFixup (line : String) : String :=
  if jsIncludes line "[FCRA §" = true ∧ jsStartsWith line "- FCRA Violation:" = false then
    jsReplaceFirst line "- " "- FCRA Violation: "
  else if jsIncludes line "[Field " = true ∧ jsStartsWith line "- Metro 2 Violation:" = false then
    jsReplaceFirst line "- " "- Metro 2 Violation: "
  else if jsIncludes line "[FDCPA §" = true ∧ jsStartsWith line "- FDCPA Violation:" = false then
    jsReplaceFirst line "- " "- FDCPA Violation: "
  else line

/-- The generic phrases whose presence (case-insensitively) discards a
response line. -/
def aiGenericPhrases : List String :=
  ["none identified", "no violations identified", "none apparent",
   "not applicable", "n/a", "no violation", "none found"]

/-- Line-level rejection test of the orchestrator. -/
def isGenericLine (line : String) : Bool :=
  aiGenericPhrases.any (fun p => jsIncludes (jsToLower line) p)

/-- Parsing of the raw completion response into violation strings, following
the orchestrator: split lines, trim, drop empties, keep bulleted lines longer
than 10, fix category prefixes, drop generic or short (≤ 30) lines. -/
def parseAiViolations (response : String) : List String :=
  let lines := ((jsSplitLines response).map jsTrim).filter (fun l => decide (l.data.length > 0))
  let valid := lines.filter (fun l => jsStartsWith l "- " = true ∧ decide (l.data.length > 10) = true)
  let fixed := valid.map lineFixup
  fixed.filter (fun l => isGenericLine l = false ∧ decide (l.data.length > 30) = true)

/-- Result of processItemWithAI for one item, with the two counter
increments of the source modelled as flags. -/
structure ItemResult where
  itemId : String
  violations : List String
  analyzed : Bool
  skippedByTokens : Bool
deriving DecidableEq

/-- processItemWithAI: derive the id, serialize the summary, skip oversized
items, otherwise consult the completion oracle; a thrown error or a null
content yields zero violations for the item. -/
def processItemWithAI (oracle : String → String → Except String (Option String))
    (item : TaggedItem) (itemIndex : Nat) : ItemResult :=
  let itemId := aiItemId item itemIndex
  let itemText := itemSummaryText item itemIndex
  let itemTokens := countTokens itemText
  if itemTokens > TOKENS_PER_ACCOUNT_LIMIT then ⟨itemId, [], false, true⟩
  else
    match oracle (itemTypeKey item) itemText with
    | Except.error _ => ⟨itemId, [], false, false⟩
    | Except.ok none => ⟨itemId, [], false, false⟩
    | Except.ok (some response) => ⟨itemId, parseAiViolations response, true, false⟩

/-- processInBatches: fixed-size batches, each fully processed before the
next starts; the list of (global index, item) pairs carries the index
`i + batchIndex` of the source. -/
def processInBatches (oracle : String → String → Except String (Option String)) :
    List (Nat × TaggedItem) → List ItemResult
  | [] => []
  | x :: xs =>
    ((x :: xs).take MAX_CONCURRENT_REQUESTS).map (fun p => processItemWithAI oracle p.2 p.1) ++
      processInBatches oracle ((x :: xs).drop MAX_CONCURRENT_REQUESTS)
termination_by l => l.length
decreasing_by simp [MAX_CONCURRENT_REQUESTS]; omega

/-! ### Serialization of the scan input (for the global token guard) -/

/-- JSON.stringify of one account restricted to the modelled fields; absent
(empty) fields are omitted as JS omits undefined properties. -/
def stringifyAccountJson (a : CreditAccount) : String :=
  jsonObjOfFields
    (([("@CreditLiabilityID", a.creditLiabilityID), ("@_AccountNumber", a.accountNumber),
       ("@_SubscriberCode", a.subscriberCode),
       ("@_DerogatoryDataIndicator", a.derogatoryDataIndicator),
       ("@_DateOfFirstDelinquency", a.dateOfFirstDelinquency),
       ("@_AccountStatus", a.accountStatus), ("@_TermsDuration", a.termsDuration),
       ("@_CurrentBalance", a.currentBalance), ("@_CreditLimit", a.creditLimit),
       ("@_DateOpened", a.dateOpened), ("@IsCollectionIndicator", a.isCollectionIndicator),
       ("@_OriginalBalance", a.originalBalance),
       ("@IsChargeoffIndicator", a.isChargeoffIndicator),
       ("@_DateLastActivity", a.dateLastActivity), ("@_AccountType", a.accountType),
       ("@_AccountStatusType", a.accountStatusType), ("@_DateReported", a.dateReported),
       ("@_DateClosed", a.dateClosed), ("@_DateFirstDelinquency", a.dateFirstDelinquency),
       ("@_PaymentHistory", a.paymentHistory)] : List (String × String)).filter
      (fun p => jsTruthy p.2))

/-- JSON.stringify of one public record restricted to the modelled fields. -/
def stringifyRecordJson (r : PublicRecord) : String :=
  jsonObjOfFields
    (([("@RecordKey", r.recordKey), ("@CreditLiabilityID", r.creditLiabilityID),
       ("@_SubscriberCode", r.subscriberCode), ("@_DateReported", r.dateReported),
       ("@_DateFiled", r.dateFiled), ("filingDate", r.filingDate),
       ("@_ComplianceConditionCode", r.complianceConditionCode),
       ("@_PublicRecordType", r.publicRecordTypeAttr),
       ("@_PublicRecordStatus", r.publicRecordStatus),
       ("@_PublicRecordAmount", r.publicRecordAmount), ("@_Court", r.court),
       ("@_AccountIdentifier", r.accountIdentifier)] : List (String × String)).filter
      (fun p => jsTruthy p.2))

/-- JSON.stringify of one inquiry restricted to the modelled fields. -/
def stringifyInquiryJson (q : Inquiry) : String :=
  jsonObjOfFields
    (([("@InquiryKey", q.inquiryKey), ("@_InquiryKey", q.inquiryKeyAttr),
       ("@_InquiryIdentifier", q.inquiryIdentifier),
       ("@_DateOfInquiry", q.dateOfInquiry), ("@_InquiryPurpose", q.inquiryPurpose),
       ("@_SubscriberName", q.subscriberName), ("@_DateReported", q.dateReported),
       ("@_InquiryType", q.inquiryType),
       ("@_InquiryPurposeType", q.inquiryPurposeType)] : List (String × String)).filter
      (fun p => jsTruthy p.2))

/-- JSON.stringify(creditData) over the modelled slice. -/
def stringifyCreditData (data : CreditData) : String :=
  "\x7b\"CREDIT_LIABILITY\":" ++ jsonArrOf (data.creditLiability.map stringifyAccountJson) ++
  ",\"PUBLIC_RECORD\":" ++ jsonArrOf (data.publicRecord.map stringifyRecordJson) ++
  ",\"INQUIRY\":" ++ jsonArrOf (data.inquiry.map stringifyInquiryJson) ++
  (if data.creditResponsePublicRecord.isEmpty then ""
   else ",\"CREDIT_RESPONSE\":\x7b\"PUBLIC_RECORD\":" ++
     jsonArrOf (data.creditResponsePublicRecord.map stringifyRecordJson) ++ "\x7d") ++
  "\x7d"

/-! ### Static public-record fallback sets (getStaticPublicRecordViolations) -/

/-- getStaticPublicRecordViolations: index-rotated canned violation sets used
for the remaining CREDIT_RESPONSE public records of the assisted path. -/
def getStaticPublicRecordViolations (index : Nat) : List String :=
  let violationSets : List (List String) :=
    [["Metro 2 Violation: Public record information is outdated or inaccurate [Field 13: Public Record Status] - Status inconsistent with court records",
      "FCRA Violation: Outdated public record - records older than 7 years still reporting negatively violate FCRA § 605(a)(4)",
      "FDCPA Violation: False representations regarding public record status - violates FDCPA § 807(2)(A)"],
     ["Metro 2 Violation: Missing compliance condition code for public record [Field 33: Compliance Condition Code] - Required for all public records",
      "FCRA Violation: Mixed credit information - public record information of another person appears on report violates FCRA § 623(a)(1)(C)",
      "FDCPA Violation: Harassment through improper public record collection activities - violates FDCPA § 806(5)"],
     ["Metro 2 Violation: Incorrect public record status code reporting [Field 13: Public Record Status] - Status code does not match court disposition",
      "FCRA Violation: Inaccurate reporting of public record discharge status - discharged debts showing positive balance violate FCRA § 605(a)(1)",
      "FDCPA Violation: Threatening to take legal action regarding public record that is not intended - violates FDCPA § 807(5)"],
     ["Metro 2 Violation: Public record balance amount inconsistent with court records [Field 06: Balance Amount] - Amount exceeds court judgment",
      "FCRA Violation: Bankruptcy discharge inaccuracies - discharged accounts showing outstanding balance violate FCRA § 605(a)(1)",
      "FDCPA Violation: Misrepresenting the amount owed on public record - violates FDCPA § 807(2)(A)"]]
  violationSets.getD (index % violationSets.length) []

/-! ### performAiScan and the route handler -/

/-- performAiScan: global token guard (a thrown INPUT_TOO_LARGE error),
static fallback when no API key is configured, otherwise batched per-item
analysis and payload assembly. -/
def performAiScan (data : CreditData) (clock : Clock) (hasApiKey : Bool)
    (oracle : String → String → Except String (Option String)) : Except String ScanPayload :=
  let creditDataText := stringifyCreditData data
  let totalInputTokens := countTokens creditDataText
  if totalInputTokens > MAX_INPUT_TOKENS then
    Except.error ("INPUT_TOO_LARGE: " ++ Nat.repr totalInputTokens ++ " tokens exceeds limit")
  else if hasApiKey = false then
    Except.ok (generateStaticViolations data clock)
  else
    let allItems := allItemsToProcess data
    let results := processInBatches oracle allItems.enum
    let violationsObj := results.foldl (fun m r => objSet m r.itemId r.violations) []
    let violationsObj2 := data.creditResponsePublicRecord.enum.foldl
      (fun m p =>
        let recordId := jsOr p.2.accountIdentifier ("PUBLIC-RECORD-" ++ padStart3 (Nat.repr (p.1 + 1)))
        if (objGet m recordId).isNone then objSet m recordId (getStaticPublicRecordViolations p.1)
        else m) violationsObj
    let totalViolations := ((violationsObj2.map Prod.snd).flatten).length
    let accountViolations := (violationsObj2.filter (fun p => jsStartsWith p.1 "TRADE")).length
    let publicRecordViolations := (violationsObj2.filter (fun p => jsIncludes p.1 "PUBLIC-RECORD")).length
    let inquiryViolations := (violationsObj2.filter (fun p => jsIncludes p.1 "INQUIRY")).length
    Except.ok
      { success := true
        totalViolations := totalViolations
        affectedAccounts := violationsObj2.length
        violations := violationsObj2
        metro2Violations := violationsObj2.map (fun p => (p.1, p.2.filter (fun v => jsIncludes v "Metro 2")))
        fcrFdcpaViolations := violationsObj2.map (fun p =>
          (p.1, p.2.filter (fun v => jsIncludes v "FCRA" || jsIncludes v "FDCPA")))
        suggestions := generateStaticSuggestions data clock
        breakdown := ⟨accountViolations, publicRecordViolations, inquiryViolations⟩
        message := "AI analysis completed: Found violations across " ++ Nat.repr accountViolations ++
          " accounts, " ++ Nat.repr publicRecordViolations ++ " public records, and " ++
          Nat.repr inquiryViolations ++ " inquiries"
        tokenInfo :=
          ⟨totalInputTokens, (results.filter (fun r => r.analyzed)).length,
           (results.filter (fun r => r.skippedByTokens)).length, results.length, false⟩ }

/-- Error body of the /api/ai-scan handler (`error` renamed to errorCode). -/
structure AiScanErrorBody where
  success : Bool
  errorCode : String
  message : String
  fallbackUsed : Bool
deriving DecidableEq

/-- Observable response of the /api/ai-scan route: the success JSON or a
status-carrying error JSON. -/
inductive AiScanHttpResponse where
  | ok (payload : ScanPayload)
  | err (status : Nat) (body : AiScanErrorBody)
deriving DecidableEq

/-- The POST /api/ai-scan handler of registerRoutes: awaits performAiScan and
maps a thrown error to a 413 / 429 / 500 error JSON by message content. -/
def aiScanRouteHandler (data : CreditData) (clock : Clock) (hasApiKey : Bool)
    (oracle : String → String → Except String (Option String)) : AiScanHttpResponse :=
  match performAiScan data clock hasApiKey oracle with
  | Except.ok result => AiScanHttpResponse.ok result
  | Except.error msg =>
    if jsIncludes msg "INPUT_TOO_LARGE" = true then
      AiScanHttpResponse.err 413
        ⟨false, "INPUT_TOO_LARGE", "Credit data is too large for AI analysis. Using static violations instead.", true⟩
    else if jsIncludes msg "insufficient_quota" = true then
      AiScanHttpResponse.err 429
        ⟨false, "QUOTA_EXCEEDED", "OpenAI API quota exceeded. Using static violations instead.", true⟩
    else
      AiScanHttpResponse.err 500
        ⟨false, "AI_SCAN_FAILED", "AI scan failed. Using static violations instead.", true⟩

/-! ### Generic facts about the duplicate-removal translation

The filter/findIndex idiom keeps exactly the first occurrence of every key
class.  `keepFirstSeen` / `dedupFirstWins` is the specification-side
formulation ("first occurrence wins, later duplicates dropped"); the two are
proved equal. -/

/-- Keep the elements whose key has not been seen yet, in order. -/
def keepFirstSeen {α : Type} (key : α → String) : List String → List α → List α
  | _, [] => []
  | seen, x :: xs =>
    if key x ∈ seen then keepFirstSeen key seen xs
    else x :: keepFirstSeen key (key x :: seen) xs

/-- Specification-side duplicate removal: the first occurrence of each key
wins, later key-duplicates are silently dropped. -/
def dedupFirstWins {α : Type} (key : α → String) (l : List α) : List α :=
  keepFirstSeen key [] l

theorem keepFirstSeen_congr {α : Type} (key : α → String) :
    ∀ (l : List α) (s1 s2 : List String), (∀ b, b ∈ s1 ↔ b ∈ s2) →
      keepFirstSeen key s1 l = keepFirstSeen key s2 l
  | [], _, _, _ => rfl
  | x :: xs, s1, s2, h => by
    by_cases hx : key x ∈ s1
    · simp only [keepFirstSeen, if_pos hx, if_pos ((h _).mp hx)]
      exact keepFirstSeen_congr key xs s1 s2 h
    · simp only [keepFirstSeen, if_neg hx, if_neg (fun hh => hx ((h _).mpr hh))]
      refine congrArg _ ?_
      exact keepFirstSeen_congr key xs _ _ (fun b => by simp [h b])

theorem jsFirstOccurrenceFilter_eq_keepFirstSeen {α : Type} (key : α → String) :
    ∀ (cur pre : List α),
      jsFirstOccurrenceFilter key (pre ++ cur) (List.enumFrom pre.length cur) =
        keepFirstSeen key (pre.map key) cur
  | [], _ => rfl
  | v :: rest, pre => by
    have hassoc : pre ++ v :: rest = (pre ++ [v]) ++ rest := by simp
    have ih := jsFirstOccurrenceFilter_eq_keepFirstSeen key rest (pre ++ [v])
    rw [← hassoc] at ih
    have hlen : (pre ++ [v]).length = pre.length + 1 := by simp
    rw [hlen] at ih
    have hmapcat : (pre ++ [v]).map key = pre.map key ++ [key v] := by simp
    rw [hmapcat] at ih
    rw [List.enumFrom_cons]
    simp only [jsFirstOccurrenceFilter]
    by_cases hv : key v ∈ pre.map key
    · have hex : ∃ y ∈ pre, (fun y => key y == key v) y = true := by
        obtain ⟨y, hy, hk⟩ := List.mem_map.mp hv
        exact ⟨y, hy, by simp [hk]⟩
      have hlt : pre.findIdx (fun y => key y == key v) < pre.length :=
        List.findIdx_lt_length.mpr hex
      have hidx : (pre ++ v :: rest).findIdx (fun y => key y == key v) ≠ pre.length := by
        rw [List.findIdx_append, if_pos hlt]; omega
      rw [if_neg hidx, ih,
        keepFirstSeen_congr key rest (pre.map key ++ [key v]) (pre.map key)
          (fun b =>
            ⟨fun hb => (List.mem_append.mp hb).elim id
              (fun h1 => by rwa [List.mem_singleton.mp h1]),
             fun hb => List.mem_append.mpr (Or.inl hb)⟩)]
      simp only [keepFirstSeen, if_pos hv]
    · have hnex : ¬ pre.findIdx (fun y => key y == key v) < pre.length := by
        intro hlt
        obtain ⟨y, hy, hk⟩ := List.findIdx_lt_length.mp hlt
        exact hv (List.mem_map.mpr ⟨y, hy, by simpa using hk⟩)
      have hidx : (pre ++ v :: rest).findIdx (fun y => key y == key v) = pre.length := by
        rw [List.findIdx_append, if_neg hnex, List.findIdx_cons]
        simp
      rw [if_pos hidx, ih,
        keepFirstSeen_congr key rest (pre.map key ++ [key v]) (key v :: pre.map key)
          (fun b => by simp [List.mem_append, List.mem_cons, or_comm])]
      simp only [keepFirstSeen, if_neg hv]

theorem removeDupsByKey_eq_dedupFirstWins {α : Type} (key : α → String) (l : List α) :
    removeDupsByKey key l = dedupFirstWins key l := by
  have h := jsFirstOccurrenceFilter_eq_keepFirstSeen key l []
  simpa [removeDupsByKey, dedupFirstWins, List.enum] using h

theorem keepFirstSeen_sublist {α : Type} (key : α → String) :
    ∀ (l : List α) (seen), List.Sublist (keepFirstSeen key seen l) l
  | [], _ => List.nil_sublist []
  | x :: xs, seen => by
    by_cases h : key x ∈ seen
    · simp only [keepFirstSeen, if_pos h]
      exact (keepFirstSeen_sublist key xs seen).cons x
    · simp only [keepFirstSeen, if_neg h]
      exact (keepFirstSeen_sublist key xs _).cons₂ x

theorem keepFirstSeen_mem_key {α : Type} (key : α → String) :
    ∀ (l : List α) (seen) (x : α), x ∈ l → key x ∉ seen →
      ∃ y ∈ keepFirstSeen key seen l, key y = key x
  | [], _, _, hx, _ => absurd hx (List.not_mem_nil _)
  | v :: rest, seen, x, hx, hns => by
    by_cases hv : key v ∈ seen
    · simp only [keepFirstSeen, if_pos hv]
      rcases List.mem_cons.mp hx with rfl | hx'
      · exact absurd hv hns
      · exact keepFirstSeen_mem_key key rest seen x hx' hns
    · simp only [keepFirstSeen, if_neg hv]
      by_cases heq : key x = key v
      · exact ⟨v, List.mem_cons_self _ _, heq.symm⟩
      · rcases List.mem_cons.mp hx with rfl | hx'
        · exact absurd rfl heq
        · obtain ⟨y, hy, hk⟩ := keepFirstSeen_mem_key key rest (key v :: seen) x hx'
            (by intro hmem
                rcases List.mem_cons.mp hmem with h1 | h2
                · exact heq h1
                · exact hns h2)
          exact ⟨y, List.mem_cons_of_mem _ hy, hk⟩

theorem dedupFirstWins_ne_nil {α : Type} (key : α → String) (x : α) (xs : List α) :
    dedupFirstWins key (x :: xs) ≠ [] := by
  simp [dedupFirstWins, keepFirstSeen]

/-- Membership in the validator normalizer implies membership in the input. -/
theorem mem_of_mem_removeDuplicatesAndSort {v : ValidatedViolation}
    {l : List ValidatedViolation} (h : v ∈ removeDuplicatesAndSort l) : v ∈ l := by
  have h1 := (List.mem_insertionSort violLE).mp h
  rw [removeDupsByKey_eq_dedupFirstWins] at h1
  exact (keepFirstSeen_sublist _ l []).subset h1

/-- Every input violation has a trim-equal representative in the output of
the validator normalizer, and that representative comes from the input. -/
theorem exists_rep_mem_removeDuplicatesAndSort {x : ValidatedViolation}
    {l : List ValidatedViolation} (hx : x ∈ l) :
    ∃ y ∈ removeDuplicatesAndSort l, jsTrim y.violation = jsTrim x.violation ∧ y ∈ l := by
  obtain ⟨y, hy, hk⟩ :=
    keepFirstSeen_mem_key (fun v => jsTrim v.violation) l [] x hx (by simp)
  refine ⟨y, ?_, hk, (keepFirstSeen_sublist _ l []).subset hy⟩
  rw [removeDuplicatesAndSort, List.mem_insertionSort, removeDupsByKey_eq_dedupFirstWins]
  exact hy

theorem removeDuplicatesAndSort_ne_nil {l : List ValidatedViolation} (h : l ≠ []) :
    removeDuplicatesAndSort l ≠ [] := by
  intro hc
  cases l with
  | nil => exact h rfl
  | cons x xs =>
    have h1 : removeDupsByKey (fun v => jsTrim v.violation) (x :: xs) ≠ [] := by
      rw [removeDupsByKey_eq_dedupFirstWins]
      exact dedupFirstWins_ne_nil _ x xs
    have h2 := List.perm_insertionSort violLE (removeDupsByKey (fun v => jsTrim v.violation) (x :: xs))
    rw [removeDuplicatesAndSort] at hc
    rw [hc] at h2
    exact h1 h2.symm.eq_nil

/-! ### Generic facts about the stable category sort

A stable sort with respect to a total preorder induced by a numeric rank is
determined by its rank classes: each class keeps the input order, and the
sorted list is the concatenation of the classes in rank order. -/

theorem filter_rank_insertionSort {α : Type} (r : α → α → Prop) [DecidableRel r]
    (k : α → Nat) (hrk : ∀ a b, r a b ↔ k a ≤ k b) (l : List α) (i : Nat) :
    (List.insertionSort r l).filter (fun a => decide (k a = i)) =
      l.filter (fun a => decide (k a = i)) := by
  have hpw : (l.filter (fun a => decide (k a = i))).Pairwise r :=
    List.pairwise_of_forall_mem_list (fun a ha b hb => by
      have hka := (List.mem_filter.mp ha).2
      have hkb := (List.mem_filter.mp hb).2
      simp only [decide_eq_true_eq] at hka hkb
      rw [hrk, hka, hkb])
  have hsub := List.sublist_insertionSort hpw (List.filter_sublist l)
  have hsub2 : List.Sublist (l.filter (fun a => decide (k a = i)))
      ((List.insertionSort r l).filter (fun a => decide (k a = i))) := by
    have h3 := List.Sublist.filter (fun a => decide (k a = i)) hsub
    have h4 : (l.filter (fun a => decide (k a = i))).filter (fun a => decide (k a = i)) =
        l.filter (fun a => decide (k a = i)) := by
      simp [List.filter_filter]
    rwa [h4] at h3
  have hperm := List.Perm.filter (fun a => decide (k a = i)) (List.perm_insertionSort r l)
  exact (hsub2.eq_of_length hperm.length_eq.symm).symm

theorem sorted_filter_zero_split {α : Type} (k : α → Nat) :
    ∀ (l : List α), l.Pairwise (fun a b => k a ≤ k b) →
      l = l.filter (fun a => decide (k a = 0)) ++ l.filter (fun a => !(decide (k a = 0)))
  | [], _ => rfl
  | x :: xs, hs => by
    have hxs : xs.Pairwise (fun a b => k a ≤ k b) := (List.pairwise_cons.mp hs).2
    by_cases h0 : k x = 0
    · have ih := sorted_filter_zero_split k xs hxs
      have hl : (x :: xs).filter (fun a => decide (k a = 0)) =
          x :: xs.filter (fun a => decide (k a = 0)) := by simp [List.filter_cons, h0]
      have hr : (x :: xs).filter (fun a => !(decide (k a = 0))) =
          xs.filter (fun a => !(decide (k a = 0))) := by simp [List.filter_cons, h0]
      rw [hl, hr, List.cons_append, ← ih]
    · have hall : ∀ a ∈ x :: xs, ¬ (k a = 0) := by
        intro a ha
        rcases List.mem_cons.mp ha with rfl | ha'
        · exact h0
        · have hle := (List.pairwise_cons.mp hs).1 a ha'
          omega
      have hl : (x :: xs).filter (fun a => decide (k a = 0)) = [] := by
        rw [List.filter_eq_nil_iff]
        intro a ha
        simpa using hall a ha
      have hr : (x :: xs).filter (fun a => !(decide (k a = 0))) = x :: xs :=
        List.filter_eq_self.mpr (fun a ha => by simpa using hall a ha)
      rw [hl, hr]
      rfl

theorem sorted_eq_rank_flatMap {α : Type} :
    ∀ (n : Nat) (k : α → Nat) (l : List α), l.Pairwise (fun a b => k a ≤ k b) →
      (∀ a ∈ l, k a < n) →
      l = (List.range n).flatMap (fun i => l.filter (fun a => decide (k a = i)))
  | 0, k, l, _, hb => by
    cases l with
    | nil => simp
    | cons x xs => exact absurd (hb x (List.mem_cons_self x xs)) (by omega)
  | n + 1, k, l, hs, hb => by
    have hsplit := sorted_filter_zero_split k l hs
    have hl'pw : (l.filter (fun a => !(decide (k a = 0)))).Pairwise
        (fun a b => k a - 1 ≤ k b - 1) :=
      (List.Pairwise.sublist (List.filter_sublist l) hs).imp
        (fun h => Nat.sub_le_sub_right h 1)
    have hl'b : ∀ a ∈ l.filter (fun a => !(decide (k a = 0))), k a - 1 < n := by
      intro a ha
      have h1 := hb a ((List.filter_sublist l).subset ha)
      have h2 := (List.mem_filter.mp ha).2
      simp only [Bool.not_eq_true', decide_eq_false_iff_not] at h2
      omega
    have ih := sorted_eq_rank_flatMap n (fun a => k a - 1)
      (l.filter (fun a => !(decide (k a = 0)))) hl'pw hl'b
    have hconv : ∀ i : Nat,
        (l.filter (fun a => !(decide (k a = 0)))).filter (fun a => decide (k a - 1 = i)) =
          (l.filter (fun a => !(decide (k a = 0)))).filter (fun a => decide (k a = i + 1)) := by
      intro i
      apply List.filter_congr
      intro a ha
      have h2 := (List.mem_filter.mp ha).2
      simp only [Bool.not_eq_true', decide_eq_false_iff_not] at h2
      exact decide_eq_decide.mpr (by omega)
    have hlf : ∀ i : Nat, l.filter (fun a => decide (k a = i + 1)) =
        (l.filter (fun a => !(decide (k a = 0)))).filter (fun a => decide (k a = i + 1)) := by
      intro i
      rw [List.filter_filter]
      apply List.filter_congr
      intro a _
      by_cases h : k a = i + 1
      · simp [h]
      · simp [h]
    rw [List.range_succ_eq_map, List.flatMap_cons, List.flatMap_map]
    have hrest : (List.range n).flatMap
        (fun i => l.filter (fun a => decide (k a = Nat.succ i))) =
        l.filter (fun a => !(decide (k a = 0))) := by
      have e1 : (List.range n).flatMap (fun i => l.filter (fun a => decide (k a = Nat.succ i))) =
          (List.range n).flatMap (fun i =>
            (l.filter (fun a => !(decide (k a = 0)))).filter (fun a => decide (k a - 1 = i))) := by
        refine congrArg _ (funext (fun i => ?_))
        rw [show Nat.succ i = i + 1 from rfl, hlf i, hconv i]
      rw [e1, ← ih]
    rw [hrest]
    exact hsplit

/-! ### Case analysis over the validator rule parts -/

theorem mem_ite_nil {α : Type} {c : Prop} [Decidable c] {x : α} {l : List α}
    (h : x ∈ (if c then l else [])) : c ∧ x ∈ l := by
  by_cases hc : c
  · rw [if_pos hc] at h
    exact ⟨hc, h⟩
  · rw [if_neg hc] at h
    exact absurd h (List.not_mem_nil x)

/-- The seven statement texts the CRC integrator can emit. -/
def crcCatalogTexts : List String :=
  [crcDerogViolationText, crcChargeoffViolationText, crcCollectionViolationText,
   crcPastDueViolationText, crcDofdViolationText, crcCollectionValidationText,
   crcCollectionEstoppelText]

/-- The nine statement texts the account validator itself can push. -/
def validatorAccountTexts : List String :=
  [metro2MissingDofdText, metro2StatusInconsistentText, metro2TermsDurationText,
   metro2BalanceExceedsLimitText, fcraOutdatedAccountText, fcraBankruptcyText,
   fcraDuplicateText, fdcpaMisrepresentText, fdcpaChargeoffActivityText]

/-- Every statement text that validateAccount can produce. -/
def accountCatalogTexts : List String := crcCatalogTexts ++ validatorAccountTexts

theorem mem_generateCRCViolations {a : CreditAccount} {s : String}
    (h : s ∈ generateCRCViolations a) : s ∈ crcCatalogTexts := by
  simp only [crcCatalogTexts, List.mem_cons, List.not_mem_nil, or_false]
  unfold generateCRCViolations at h
  simp only [List.append_assoc] at h
  rcases List.mem_append.mp h with h | h
  · exact Or.inl (List.mem_singleton.mp (mem_ite_nil h).2)
  rcases List.mem_append.mp h with h | h
  · exact Or.inr (Or.inl (List.mem_singleton.mp (mem_ite_nil h).2))
  rcases List.mem_append.mp h with h | h
  · exact Or.inr (Or.inr (Or.inl (List.mem_singleton.mp (mem_ite_nil h).2)))
  rcases List.mem_append.mp h with h | h
  · exact Or.inr (Or.inr (Or.inr (Or.inl (List.mem_singleton.mp (mem_ite_nil h).2))))
  rcases List.mem_append.mp h with h | h
  · exact Or.inr (Or.inr (Or.inr (Or.inr (Or.inl (List.mem_singleton.mp (mem_ite_nil h).2)))))
  · have hm := (mem_ite_nil h).2
    clear h
    simp only [List.mem_cons, List.not_mem_nil, or_false] at hm
    rcases hm with rfl | rfl
    · exact Or.inr (Or.inr (Or.inr (Or.inr (Or.inr (Or.inl rfl)))))
    · exact Or.inr (Or.inr (Or.inr (Or.inr (Or.inr (Or.inr rfl)))))

/-- The combined violation list assembled by validateAccount before
formatting. -/
def accountCombinedViolations (a : CreditAccount) (clock : Clock) : List ValidatedViolation :=
  validateMetro2Violations a ++ validateFCRAViolations a clock ++ validateFDCPAViolations a clock

theorem validateAccount_eq (a : CreditAccount) (clock : Clock) :
    validateAccount a clock = formatValidationResult (accountCombinedViolations a clock) := rfl

theorem accountCombined_cases {a : CreditAccount} {clock : Clock} {v : ValidatedViolation}
    (h : v ∈ accountCombinedViolations a clock) :
    (∃ s ∈ generateCRCViolations a, v = crcToValidated s) ∨
    v ∈ metro2DofdPart a ∨ v ∈ metro2RatingStatusPart a ∨ v ∈ metro2TermsPart a ∨
    v ∈ metro2BalancePart a ∨ v ∈ fcraOutdatedPart a clock ∨ v ∈ fcraBankruptcyPart a ∨
    v ∈ fcraDuplicatePart a ∨ v ∈ fdcpaCollectionPart a ∨ v ∈ fdcpaChargeoffPart a clock := by
  have hcrc : ∀ part : String → Bool,
      v ∈ ((generateCRCViolations a).filter part).map crcToValidated →
      ∃ s ∈ generateCRCViolations a, v = crcToValidated s := by
    intro part hh
    obtain ⟨s, hs, hv⟩ := List.mem_map.mp hh
    exact ⟨s, (List.mem_filter.mp hs).1, hv.symm⟩
  unfold accountCombinedViolations validateMetro2Violations validateFCRAViolations
    validateFDCPAViolations metro2CrcPart fcraCrcPart fdcpaCrcPart at h
  simp only [List.append_assoc] at h
  rcases List.mem_append.mp h with h | h
  · exact Or.inl (hcrc (fun v => jsIncludes v "Metro 2") h)
  rcases List.mem_append.mp h with h | h
  · exact Or.inr (Or.inl h)
  rcases List.mem_append.mp h with h | h
  · exact Or.inr (Or.inr (Or.inl h))
  rcases List.mem_append.mp h with h | h
  · exact Or.inr (Or.inr (Or.inr (Or.inl h)))
  rcases List.mem_append.mp h with h | h
  · exact Or.inr (Or.inr (Or.inr (Or.inr (Or.inl h))))
  rcases List.mem_append.mp h with h | h
  · exact Or.inl (hcrc (fun v => jsIncludes v "FCRA") h)
  rcases List.mem_append.mp h with h | h
  · exact Or.inr (Or.inr (Or.inr (Or.inr (Or.inr (Or.inl h)))))
  rcases List.mem_append.mp h with h | h
  · exact Or.inr (Or.inr (Or.inr (Or.inr (Or.inr (Or.inr (Or.inl h))))))
  rcases List.mem_append.mp h with h | h
  · exact Or.inr (Or.inr (Or.inr (Or.inr (Or.inr (Or.inr (Or.inr (Or.inl h)))))))
  rcases List.mem_append.mp h with h | h
  · exact Or.inl (hcrc (fun v => jsIncludes v "FDCPA") h)
  rcases List.mem_append.mp h with h | h
  · exact Or.inr (Or.inr (Or.inr (Or.inr (Or.inr (Or.inr (Or.inr (Or.inr (Or.inl h))))))))
  · exact Or.inr (Or.inr (Or.inr (Or.inr (Or.inr (Or.inr (Or.inr (Or.inr (Or.inr h))))))))

theorem accountCombined_violation_catalog {a : CreditAccount} {clock : Clock}
    {v : ValidatedViolation} (h : v ∈ accountCombinedViolations a clock) :
    v.violation ∈ accountCatalogTexts := by
  have mem9 : ∀ t : String, t ∈ validatorAccountTexts → t ∈ accountCatalogTexts :=
    fun t ht => List.mem_append.mpr (Or.inr ht)
  rcases accountCombined_cases h with hcrc | h | h | h | h | h | h | h | h | h
  · obtain ⟨s, hs, rfl⟩ := hcrc
    exact List.mem_append.mpr (Or.inl (mem_generateCRCViolations hs))
  · rw [List.mem_singleton.mp (mem_ite_nil h).2]
    exact mem9 _ (List.mem_cons_self _ _)
  · rw [List.mem_singleton.mp (mem_ite_nil h).2]
    exact mem9 _ (List.mem_cons_of_mem _ (List.mem_cons_self _ _))
  · rw [List.mem_singleton.mp (mem_ite_nil h).2]
    exact mem9 _ (List.mem_cons_of_mem _ (List.mem_cons_of_mem _ (List.mem_cons_self _ _)))
  · rw [List.mem_singleton.mp (mem_ite_nil h).2]
    exact mem9 _ (List.mem_cons_of_mem _ (List.mem_cons_of_mem _ (List.mem_cons_of_mem _
      (List.mem_cons_self _ _))))
  · rw [List.mem_singleton.mp (mem_ite_nil h).2]
    exact mem9 _ (List.mem_cons_of_mem _ (List.mem_cons_of_mem _ (List.mem_cons_of_mem _
      (List.mem_cons_of_mem _ (List.mem_cons_self _ _)))))
  · rw [List.mem_singleton.mp (mem_ite_nil h).2]
    exact mem9 _ (List.mem_cons_of_mem _ (List.mem_cons_of_mem _ (List.mem_cons_of_mem _
      (List.mem_cons_of_mem _ (List.mem_cons_of_mem _ (List.mem_cons_self _ _))))))
  · rw [List.mem_singleton.mp (mem_ite_nil h).2]
    exact mem9 _ (List.mem_cons_of_mem _ (List.mem_cons_of_mem _ (List.mem_cons_of_mem _
      (List.mem_cons_of_mem _ (List.mem_cons_of_mem _ (List.mem_cons_of_mem _
        (List.mem_cons_self _ _)))))))
  · rw [List.mem_singleton.mp (mem_ite_nil h).2]
    exact mem9 _ (List.mem_cons_of_mem _ (List.mem_cons_of_mem _ (List.mem_cons_of_mem _
      (List.mem_cons_of_mem _ (List.mem_cons_of_mem _ (List.mem_cons_of_mem _
        (List.mem_cons_of_mem _ (List.mem_cons_self _ _))))))))
  · rw [List.mem_singleton.mp (mem_ite_nil h).2]
    exact mem9 _ (List.mem_cons_of_mem _ (List.mem_cons_of_mem _ (List.mem_cons_of_mem _
      (List.mem_cons_of_mem _ (List.mem_cons_of_mem _ (List.mem_cons_of_mem _
        (List.mem_cons_of_mem _ (List.mem_cons_of_mem _ (List.mem_cons_self _ _)))))))))

set_option maxRecDepth 40000 in
set_option maxHeartbeats 2000000 in
/-- Catalog texts carry no surrounding whitespace: trimming fixes them. -/
theorem accountCatalog_trim : ∀ c ∈ accountCatalogTexts, jsTrim c = c := by decide

/-- The combined violation list assembled by validatePublicRecord. -/
def recordCombinedViolations (r : PublicRecord) (clock : Clock) : List ValidatedViolation :=
  recordOutdatedPart r clock ++ recordCompliancePart r

theorem validatePublicRecord_eq (r : PublicRecord) (clock : Clock) :
    validatePublicRecord r clock = formatValidationResult (recordCombinedViolations r clock) := rfl

theorem recordCombined_violation_catalog {r : PublicRecord} {clock : Clock}
    {v : ValidatedViolation} (h : v ∈ recordCombinedViolations r clock) :
    v.violation = fcraOutdatedRecordText ∨ v.violation = metro2MissingComplianceCodeText := by
  unfold recordCombinedViolations at h
  rcases List.mem_append.mp h with h | h
  · rw [List.mem_singleton.mp (mem_ite_nil h).2]
    exact Or.inl rfl
  · rw [List.mem_singleton.mp (mem_ite_nil h).2]
    exact Or.inr rfl

/-- The combined violation list assembled by validateInquiry. -/
def inquiryCombinedViolations (q : Inquiry) (clock : Clock) : List ValidatedViolation :=
  inquiryOutdatedPart q clock ++ inquiryPurposePart q

theorem validateInquiry_eq (q : Inquiry) (clock : Clock) :
    validateInquiry q clock = formatValidationResult (inquiryCombinedViolations q clock) := rfl

theorem inquiryCombined_violation_catalog {q : Inquiry} {clock : Clock}
    {v : ValidatedViolation} (h : v ∈ inquiryCombinedViolations q clock) :
    v.violation = fcraOutdatedInquiryText ∨ v.violation = metro2MissingInquiryPurposeText := by
  unfold inquiryCombinedViolations at h
  rcases List.mem_append.mp h with h | h
  · rw [List.mem_singleton.mp (mem_ite_nil h).2]
    exact Or.inl rfl
  · rw [List.mem_singleton.mp (mem_ite_nil h).2]
    exact Or.inr rfl

/-! ### Facts about formatValidationResult -/

theorem formatValidationResult_violations (l : List ValidatedViolation) :
    (formatValidationResult l).violations = removeDuplicatesAndSort l := rfl

theorem formatValidationResult_of_ne_nil {l : List ValidatedViolation} (h : l ≠ []) :
    (formatValidationResult l).hasViolations = true ∧
    (formatValidationResult l).noViolationMessage = none := by
  have h1 : removeDuplicatesAndSort l ≠ [] := removeDuplicatesAndSort_ne_nil h
  have h2 : decide ((removeDuplicatesAndSort l).length > 0) = true := by
    rw [decide_eq_true_eq]
    exact List.length_pos.mpr h1
  unfold formatValidationResult
  constructor
  · simpa using h2
  · simp [h2]

theorem ne_nil_of_mem {α : Type} {x : α} {l : List α} (h : x ∈ l) : l ≠ [] := by
  intro hc
  rw [hc] at h
  exact absurd h (List.not_mem_nil x)

/-- A violation with a catalog text that reaches the combined list survives
normalization with its exact statement text. -/
theorem exists_violation_text_mem_validateAccount {a : CreditAccount} {clock : Clock} {t : String}
    (ht : t ∈ accountCatalogTexts)
    (hx : ∃ x ∈ accountCombinedViolations a clock, x.violation = t) :
    ∃ y ∈ (validateAccount a clock).violations, y.violation = t := by
  obtain ⟨x, hxm, hxv⟩ := hx
  obtain ⟨y, hy, htrim, hyl⟩ := exists_rep_mem_removeDuplicatesAndSort hxm
  refine ⟨y, ?_, ?_⟩
  · rw [validateAccount_eq, formatValidationResult_violations]
    exact hy
  · have h1 := accountCatalog_trim _ (accountCombined_violation_catalog hyl)
    have h2 := accountCatalog_trim _ ht
    rw [h1, hxv, h2] at htrim
    exact htrim

theorem mem_combined_of_mem_validateAccount {a : CreditAccount} {clock : Clock}
    {v : ValidatedViolation} (h : v ∈ (validateAccount a clock).violations) :
    v ∈ accountCombinedViolations a clock := by
  rw [validateAccount_eq, formatValidationResult_violations] at h
  exact mem_of_mem_removeDuplicatesAndSort h

/-! ### Claim C4 -/

/-- Minimal account exhibiting only the derogatory-flag condition:
"@_DerogatoryDataIndicator" is "Y" and every other field is absent. -/
def minimalDerogAccount : CreditAccount :=
  { (default : CreditAccount) with derogatoryDataIndicator := "Y" }

/-- The validated violation pushed for a missing Date of First Delinquency. -/
def missingDofdViolation : ValidatedViolation :=
  ⟨metro2MissingDofdText, "CRC Advanced Disputing Workbook, Page 3-46", "Section 4.2.1", "", true⟩

set_option maxRecDepth 40000 in
/-- C4: every account whose derogatory-data indicator is "Y" and whose
"@_DateOfFirstDelinquency" is missing receives the Metro-2 "Missing Date of
First Delinquency" violation with source citation "CRC Advanced Disputing
Workbook, Page 3-46"; and on an account exhibiting only that condition the
Metro-2 validator emits exactly this one violation and no other. -/
theorem C4_missing_dofd_violation (a : CreditAccount)
    (hderog : a.derogatoryDataIndicator = "Y")
    (hmissing : jsTruthy a.dateOfFirstDelinquency = false) :
    (∃ v ∈ validateMetro2Violations a,
      v.violation = metro2MissingDofdText ∧
      v.source = "CRC Advanced Disputing Workbook, Page 3-46") ∧
    validateMetro2Violations minimalDerogAccount = [missingDofdViolation] := by
  constructor
  · refine ⟨missingDofdViolation, ?_, rfl, rfl⟩
    have h1 : metro2DofdPart a = [missingDofdViolation] := by
      rw [metro2DofdPart, if_pos ⟨hderog, hmissing⟩]
      rfl
    unfold validateMetro2Violations
    rw [h1]
    simp
  · decide

/-- Witness for C4 at the minimal derogatory account. -/
theorem C4_missing_dofd_violation_witness :
    (∃ v ∈ validateMetro2Violations minimalDerogAccount,
      v.violation = metro2MissingDofdText ∧
      v.source = "CRC Advanced Disputing Workbook, Page 3-46") ∧
    validateMetro2Violations minimalDerogAccount = [missingDofdViolation] :=
  C4_missing_dofd_violation minimalDerogAccount (by decide) (by decide)

/-! ### Claim C10 -/

set_option maxRecDepth 40000 in
/-- C10: an account with non-empty "@_AccountNumber" and "@_SubscriberCode"
unconditionally receives the "Potential duplicate account" FCRA violation
from validateFCRAViolations (no comparison with any other account is
involved), so validateAccount reports violations and never the no-violation
sentinel for it. -/
theorem C10_duplicate_unconditional (a : CreditAccount) (clock : Clock)
    (hnum : jsTruthy a.accountNumber = true)
    (hsub : jsTruthy a.subscriberCode = true) :
    (∃ v ∈ validateFCRAViolations a clock, v.violation = fcraDuplicateText) ∧
    (validateAccount a clock).hasViolations = true ∧
    (validateAccount a clock).noViolationMessage = none := by
  have hdup : fcraDuplicatePart a =
      [⟨fcraDuplicateText, "FCRA Top 10 Violations Guide", "Page 5", "Violation #3", true⟩] := by
    rw [fcraDuplicatePart, if_pos ⟨hnum, hsub⟩]
  have hmemf : (⟨fcraDuplicateText, "FCRA Top 10 Violations Guide", "Page 5", "Violation #3",
      true⟩ : ValidatedViolation) ∈ validateFCRAViolations a clock := by
    unfold validateFCRAViolations
    rw [hdup]
    simp
  refine ⟨⟨_, hmemf, rfl⟩, ?_⟩
  have hmemc : (⟨fcraDuplicateText, "FCRA Top 10 Violations Guide", "Page 5", "Violation #3",
      true⟩ : ValidatedViolation) ∈ accountCombinedViolations a clock := by
    unfold accountCombinedViolations
    simp only [List.mem_append]
    exact Or.inl (Or.inr hmemf)
  rw [validateAccount_eq]
  exact formatValidationResult_of_ne_nil (ne_nil_of_mem hmemc)

/-- Witness for C10. -/
theorem C10_duplicate_unconditional_witness :
    (∃ v ∈ validateFCRAViolations
        { (default : CreditAccount) with accountNumber := "12345", subscriberCode := "SUB1" }
        ⟨0, 0, 0⟩, v.violation = fcraDuplicateText) ∧
    (validateAccount
        { (default : CreditAccount) with accountNumber := "12345", subscriberCode := "SUB1" }
        ⟨0, 0, 0⟩).hasViolations = true ∧
    (validateAccount
        { (default : CreditAccount) with accountNumber := "12345", subscriberCode := "SUB1" }
        ⟨0, 0, 0⟩).noViolationMessage = none :=
  C10_duplicate_unconditional _ _ (by decide) (by decide)

/-! ### Claim C3 -/

/-- A fixed evaluation clock for concrete scenarios. -/
def clock0 : Clock := ⟨0, 0, 0⟩

/-- An account whose "@_AccountStatus" is literally "Closed" with a positive
current balance, and nothing else set. -/
def closedBalanceAccount : CreditAccount :=
  { (default : CreditAccount) with accountStatus := "Closed", currentBalance := "100" }

set_option maxRecDepth 40000 in
/-- Counterexample to C3 as stated: for the literal status "Closed" with
balance 100 the validator yields no violation at all, in particular no
closed-status/positive-balance inconsistency violation. -/
theorem C3_closed_balance_counterexample :
    closedBalanceAccount.accountStatus = "Closed" ∧
    nanGt (parseIntJS (jsOr closedBalanceAccount.currentBalance "0")) (some 0) = true ∧
    (validateAccount closedBalanceAccount clock0).violations = [] ∧
    (validateAccount closedBalanceAccount clock0).hasViolations = false := by decide

set_option maxRecDepth 40000 in
/-- C3 amended: the status/balance inconsistency rule of the code is keyed on
the bankruptcy-discharge status codes "61" / "62", not on the literal status
"Closed": with such a status and positive parsed balance validateAccount
yields the FCRA bankruptcy-discharge positive-balance violation, and with a
non-positive (or unparsable) balance it does not. -/
theorem C3_bankruptcy_balance_amended (a : CreditAccount) (clock : Clock)
    (hstatus : a.accountStatus = "61" ∨ a.accountStatus = "62") :
    (nanGt (parseIntJS (jsOr a.currentBalance "0")) (some 0) = true →
      ∃ v ∈ (validateAccount a clock).violations, v.violation = fcraBankruptcyText) ∧
    (nanGt (parseIntJS (jsOr a.currentBalance "0")) (some 0) = false →
      ∀ v ∈ (validateAccount a clock).violations, v.violation ≠ fcraBankruptcyText) := by
  constructor
  · intro hbal
    apply exists_violation_text_mem_validateAccount (by decide)
    refine ⟨⟨fcraBankruptcyText, "FCRA Top 10 Violations Guide", "Page 4", "Violation #2",
      true⟩, ?_, rfl⟩
    have hb : fcraBankruptcyPart a =
        [⟨fcraBankruptcyText, "FCRA Top 10 Violations Guide", "Page 4", "Violation #2", true⟩] := by
      rw [fcraBankruptcyPart, if_pos ⟨hstatus, hbal⟩]
    unfold accountCombinedViolations validateFCRAViolations
    rw [hb]
    simp
  · intro hbal v hv hveq
    have hmem := mem_combined_of_mem_validateAccount hv
    rcases accountCombined_cases hmem with hcrc | h | h | h | h | h | h | h | h | h
    · obtain ⟨s, hs, rfl⟩ := hcrc
      have hcat := mem_generateCRCViolations hs
      rw [show (crcToValidated s).violation = s from rfl] at hveq
      rw [hveq] at hcat
      exact absurd hcat (by decide)
    · rw [List.mem_singleton.mp (mem_ite_nil h).2] at hveq
      exact absurd hveq (by decide)
    · rw [List.mem_singleton.mp (mem_ite_nil h).2] at hveq
      exact absurd hveq (by decide)
    · rw [List.mem_singleton.mp (mem_ite_nil h).2] at hveq
      exact absurd hveq (by decide)
    · rw [List.mem_singleton.mp (mem_ite_nil h).2] at hveq
      exact absurd hveq (by decide)
    · rw [List.mem_singleton.mp (mem_ite_nil h).2] at hveq
      exact absurd hveq (by decide)
    · have hc := (mem_ite_nil h).1
      have hfalse := hc.2
      rw [hbal] at hfalse
      exact absurd hfalse (by decide)
    · rw [List.mem_singleton.mp (mem_ite_nil h).2] at hveq
      exact absurd hveq (by decide)
    · rw [List.mem_singleton.mp (mem_ite_nil h).2] at hveq
      exact absurd hveq (by decide)
    · rw [List.mem_singleton.mp (mem_ite_nil h).2] at hveq
      exact absurd hveq (by decide)

/-- A bankruptcy-discharge-status account with positive balance. -/
def bankruptcyStatusAccount : CreditAccount :=
  { (default : CreditAccount) with accountStatus := "61", currentBalance := "100" }

set_option maxRecDepth 40000 in
/-- Witness for the amended C3. -/
theorem C3_bankruptcy_balance_amended_witness :
    ∃ v ∈ (validateAccount bankruptcyStatusAccount clock0).violations,
      v.violation = fcraBankruptcyText :=
  (C3_bankruptcy_balance_amended bankruptcyStatusAccount clock0 (Or.inl rfl)).1 (by decide)

/-! ### Claim C8 -/

theorem fcraOutdatedPart_eq_nil {a : CreditAccount} {clock : Clock}
    (h : jsTruthy a.dateOpened = false ∨ parseDateJS a.dateOpened = none) :
    fcraOutdatedPart a clock = [] := by
  rw [fcraOutdatedPart, if_neg]
  rintro ⟨h1, h2, -⟩
  rcases h with h | h
  · rw [h1] at h
    exact absurd h (by decide)
  · rw [h] at h2
    simp [dateLt] at h2

theorem recordOutdatedPart_eq_nil {r : PublicRecord} {clock : Clock}
    (h : jsTruthy (jsOr r.dateReported r.dateFiled) = false ∨
      parseDateJS (jsOr r.dateReported r.dateFiled) = none) :
    recordOutdatedPart r clock = [] := by
  rw [recordOutdatedPart, if_neg]
  rintro ⟨h1, h2⟩
  rcases h with h | h
  · rw [h1] at h
    exact absurd h (by decide)
  · rw [h] at h2
    simp [dateLt] at h2

theorem inquiryOutdatedPart_eq_nil {q : Inquiry} {clock : Clock}
    (h : jsTruthy q.dateOfInquiry = false ∨ parseDateJS q.dateOfInquiry = none) :
    inquiryOutdatedPart q clock = [] := by
  rw [inquiryOutdatedPart, if_neg]
  rintro ⟨h1, h2⟩
  rcases h with h | h
  · rw [h1] at h
    exact absurd h (by decide)
  · rw [h] at h2
    simp [dateLt] at h2

theorem fdcpaChargeoffPart_eq_nil {a : CreditAccount} {clock : Clock}
    (h : jsTruthy a.dateLastActivity = false ∨ parseDateJS a.dateLastActivity = none) :
    fdcpaChargeoffPart a clock = [] := by
  rw [fdcpaChargeoffPart, if_neg]
  rintro ⟨-, h1, h2⟩
  rcases h with h | h
  · rw [h1] at h
    exact absurd h (by decide)
  · rw [h] at h2
    simp [dateGt] at h2

set_option maxRecDepth 40000 in
/-- C8: every date-based predicate short-circuits when its date field is
absent or unparsable: the 7-year account rule, the 7-year public-record
rule, the 2-year inquiry rule and the 6-month post-charge-off rule each
raise no violation. -/
theorem C8_date_guards_short_circuit (clock : Clock) :
    (∀ a : CreditAccount, jsTruthy a.dateOpened = false ∨ parseDateJS a.dateOpened = none →
      ∀ v ∈ validateFCRAViolations a clock, v.violation ≠ fcraOutdatedAccountText) ∧
    (∀ r : PublicRecord,
      jsTruthy (jsOr r.dateReported r.dateFiled) = false ∨
        parseDateJS (jsOr r.dateReported r.dateFiled) = none →
      ∀ v ∈ (validatePublicRecord r clock).violations, v.violation ≠ fcraOutdatedRecordText) ∧
    (∀ q : Inquiry, jsTruthy q.dateOfInquiry = false ∨ parseDateJS q.dateOfInquiry = none →
      ∀ v ∈ (validateInquiry q clock).violations, v.violation ≠ fcraOutdatedInquiryText) ∧
    (∀ a : CreditAccount,
      jsTruthy a.dateLastActivity = false ∨ parseDateJS a.dateLastActivity = none →
      ∀ v ∈ validateFDCPAViolations a clock, v.violation ≠ fdcpaChargeoffActivityText) := by
  refine ⟨?_, ?_, ?_, ?_⟩
  · intro a hdate v hv hveq
    unfold validateFCRAViolations fcraCrcPart at hv
    rw [fcraOutdatedPart_eq_nil hdate] at hv
    simp only [List.append_assoc, List.append_nil, List.nil_append] at hv
    rcases List.mem_append.mp hv with h | h
    · obtain ⟨s, hs, rfl⟩ := List.mem_map.mp h
      have hcat := mem_generateCRCViolations (List.mem_filter.mp hs).1
      rw [show (crcToValidated s).violation = s from rfl] at hveq
      rw [hveq] at hcat
      exact absurd hcat (by decide)
    rcases List.mem_append.mp h with h | h
    · rw [List.mem_singleton.mp (mem_ite_nil h).2] at hveq
      exact absurd hveq (by decide)
    · rw [List.mem_singleton.mp (mem_ite_nil h).2] at hveq
      exact absurd hveq (by decide)
  · intro r hdate v hv hveq
    rw [validatePublicRecord_eq, formatValidationResult_violations] at hv
    have hmem := mem_of_mem_removeDuplicatesAndSort hv
    unfold recordCombinedViolations at hmem
    rw [recordOutdatedPart_eq_nil hdate, List.nil_append] at hmem
    rw [List.mem_singleton.mp (mem_ite_nil hmem).2] at hveq
    exact absurd hveq (by decide)
  · intro q hdate v hv hveq
    rw [validateInquiry_eq, formatValidationResult_violations] at hv
    have hmem := mem_of_mem_removeDuplicatesAndSort hv
    unfold inquiryCombinedViolations at hmem
    rw [inquiryOutdatedPart_eq_nil hdate, List.nil_append] at hmem
    rw [List.mem_singleton.mp (mem_ite_nil hmem).2] at hveq
    exact absurd hveq (by decide)
  · intro a hdate v hv hveq
    unfold validateFDCPAViolations fdcpaCrcPart at hv
    rw [fdcpaChargeoffPart_eq_nil hdate] at hv
    simp only [List.append_assoc, List.append_nil, List.nil_append] at hv
    rcases List.mem_append.mp hv with h | h
    · obtain ⟨s, hs, rfl⟩ := List.mem_map.mp h
      have hcat := mem_generateCRCViolations (List.mem_filter.mp hs).1
      rw [show (crcToValidated s).violation = s from rfl] at hveq
      rw [hveq] at hcat
      exact absurd hcat (by decide)
    · rw [List.mem_singleton.mp (mem_ite_nil h).2] at hveq
      exact absurd hveq (by decide)

set_option maxRecDepth 40000 in
/-- Witness for C8: a derogatory account whose "@_DateOpened" is truthy but
unparsable raises no outdated-account violation. -/
theorem C8_date_guards_short_circuit_witness :
    ∀ v ∈ validateFCRAViolations
      { (default : CreditAccount) with dateOpened := "garbage", derogatoryDataIndicator := "Y" }
      clock0, v.violation ≠ fcraOutdatedAccountText :=
  (C8_date_guards_short_circuit clock0).1 _ (Or.inr (by decide))

/-! ### Claim C7 -/

/-- A collection account whose "@_OriginalBalance" is unparsable. -/
def collectionUnparsableAccount : CreditAccount :=
  { (default : CreditAccount) with
      isCollectionIndicator := "Y", currentBalance := "100", originalBalance := "abc" }

set_option maxRecDepth 40000 in
/-- Counterexample to C7 as stated: an unparsable numeric field does not
behave as the value 0 in every numeric predicate.  With an unparsable
original balance the collection comparison is false and the misrepresentation
violation is suppressed, while the value 0 would raise it, so evaluation of
the two accounts differs. -/
theorem C7_unparsable_not_zero_counterexample :
    parseIntJS collectionUnparsableAccount.originalBalance = none ∧
    validateFDCPAViolations collectionUnparsableAccount clock0 = [] ∧
    validateFDCPAViolations { collectionUnparsableAccount with originalBalance := "0" } clock0 =
      [⟨fdcpaMisrepresentText, "CRC Top 10 Advanced Dispute Letters, Page 1-292", "Page 12",
        "Section 807 Violations", true⟩] ∧
    validateAccount collectionUnparsableAccount clock0 ≠
      validateAccount { collectionUnparsableAccount with originalBalance := "0" } clock0 := by
  decide

theorem nanGt_none_left (x : Option Int) : nanGt none x = false := rfl

theorem metro2BalancePart_currentBalance_zero {a : CreditAccount}
    (h : parseIntJS a.currentBalance = none) :
    metro2BalancePart { a with currentBalance := "0" } = metro2BalancePart a := by
  unfold metro2BalancePart
  dsimp only
  by_cases ht : jsTruthy a.currentBalance = true
  · rw [show jsOr a.currentBalance "0" = a.currentBalance from by simp [jsOr, ht], h,
      show parseIntJS (jsOr "0" "0") = some 0 from by decide]
    rcases hX : parseIntJS (jsOr a.creditLimit "0") with _ | c
    · simp [nanGt]
    · simp only [nanGt, nanGt_none_left, decide_eq_true_eq]
      rw [if_neg (by omega), if_neg (by simp)]
  · rw [show a.currentBalance = "" from by simpa [jsTruthy] using ht,
      show jsOr "" "0" = jsOr "0" "0" from by decide]

theorem fcraBankruptcyPart_currentBalance_zero {a : CreditAccount}
    (h : parseIntJS a.currentBalance = none) :
    fcraBankruptcyPart { a with currentBalance := "0" } = fcraBankruptcyPart a := by
  unfold fcraBankruptcyPart
  dsimp only
  by_cases ht : jsTruthy a.currentBalance = true
  · rw [show jsOr a.currentBalance "0" = a.currentBalance from by simp [jsOr, ht], h,
      show parseIntJS (jsOr "0" "0") = some 0 from by decide]
    simp [nanGt]
  · rw [show a.currentBalance = "" from by simpa [jsTruthy] using ht,
      show jsOr "" "0" = jsOr "0" "0" from by decide]

theorem metro2BalancePart_creditLimit_zero {a : CreditAccount}
    (h : parseIntJS a.creditLimit = none) :
    metro2BalancePart { a with creditLimit := "0" } = metro2BalancePart a := by
  unfold metro2BalancePart
  dsimp only
  by_cases ht : jsTruthy a.creditLimit = true
  · rw [show jsOr a.creditLimit "0" = a.creditLimit from by simp [jsOr, ht], h,
      show parseIntJS (jsOr "0" "0") = some 0 from by decide]
    simp [nanGt]
  · rw [show a.creditLimit = "" from by simpa [jsTruthy] using ht,
      show jsOr "" "0" = jsOr "0" "0" from by decide]

set_option maxRecDepth 40000 in
/-- C7 amended: evaluation is total and treats an unparsable numeric field as
NaN, which falsifies every comparison involving it.  For "@_CurrentBalance"
this coincides with substituting the value 0 in the Metro-2 and FCRA
validators, and for "@_CreditLimit" in all of validateAccount; the FDCPA
collection comparison is where the two semantics part (see the
counterexample). -/
theorem C7_unparsable_amended (a : CreditAccount) (clock : Clock) :
    (parseIntJS a.currentBalance = none →
      validateMetro2Violations { a with currentBalance := "0" } = validateMetro2Violations a ∧
      validateFCRAViolations { a with currentBalance := "0" } clock =
        validateFCRAViolations a clock) ∧
    (parseIntJS a.creditLimit = none →
      validateAccount { a with creditLimit := "0" } clock = validateAccount a clock) := by
  constructor
  · intro h
    constructor
    · unfold validateMetro2Violations
      rw [metro2BalancePart_currentBalance_zero h]
      rfl
    · unfold validateFCRAViolations
      rw [fcraBankruptcyPart_currentBalance_zero h]
      rfl
  · intro h
    rw [validateAccount_eq, validateAccount_eq]
    refine congrArg _ ?_
    unfold accountCombinedViolations validateMetro2Violations
    rw [metro2BalancePart_creditLimit_zero h]
    rfl

set_option maxRecDepth 40000 in
/-- Witness for the amended C7 at an unparsable current balance. -/
theorem C7_unparsable_amended_witness :
    validateMetro2Violations
        { ({ (default : CreditAccount) with currentBalance := "abc" } : CreditAccount) with
            currentBalance := "0" } =
      validateMetro2Violations { (default : CreditAccount) with currentBalance := "abc" } ∧
    validateFCRAViolations
        { ({ (default : CreditAccount) with currentBalance := "abc" } : CreditAccount) with
            currentBalance := "0" } clock0 =
      validateFCRAViolations { (default : CreditAccount) with currentBalance := "abc" } clock0 :=
  (C7_unparsable_amended { (default : CreditAccount) with currentBalance := "abc" } clock0).1
    (by decide)

/-! ### Claim C5 -/

theorem formatValidationResult_noViolationMessage_of_false {l : List ValidatedViolation}
    (h : (formatValidationResult l).hasViolations = false) :
    (formatValidationResult l).noViolationMessage = some NO_VIOLATION_MESSAGE := by
  unfold formatValidationResult at h ⊢
  simp only at h ⊢
  rw [h]
  simp

theorem sentinel_not_in_accountCatalog : NO_VIOLATION_MESSAGE ∉ accountCatalogTexts := by decide

theorem generateStaticViolations_metro2 (data : CreditData) (clock : Clock) :
    (generateStaticViolations data clock).metro2Violations =
      (staticRawViolationsObj data clock).map (fun p =>
        (p.1, ((staticItemProcessed p.2).filter (fun v => !(v == NO_VIOLATION_MESSAGE))).filter
          (fun v => jsIncludes v "Metro 2"))) := by
  unfold generateStaticViolations
  simp only [List.map_map]
  rfl

theorem generateStaticViolations_fcrFdcpa (data : CreditData) (clock : Clock) :
    (generateStaticViolations data clock).fcrFdcpaViolations =
      (staticRawViolationsObj data clock).map (fun p =>
        (p.1, ((staticItemProcessed p.2).filter (fun v => !(v == NO_VIOLATION_MESSAGE))).filter
          (fun v => jsIncludes v "FCRA" || jsIncludes v "FDCPA"))) := by
  unfold generateStaticViolations
  simp only [List.map_map]
  rfl

set_option maxRecDepth 40000 in
/-- C5: an item on which no predicate matched is recorded by the static scan
as exactly the one sentinel string, which survives the per-item dedup/sort
unchanged; the validator itself never emits the sentinel as a violation
statement; and the sentinel is excluded from both per-category maps and from
totalViolations. -/
theorem C5_no_violation_sentinel (data : CreditData) (clock : Clock) :
    (∀ a : CreditAccount, (validateAccount a clock).hasViolations = false →
      staticAccountViolationStrings a clock = [NO_VIOLATION_MESSAGE] ∧
      staticItemProcessed (staticAccountViolationStrings a clock) = [NO_VIOLATION_MESSAGE]) ∧
    (∀ r : PublicRecord, (validatePublicRecord r clock).hasViolations = false →
      staticRecordViolationStrings r clock = [NO_VIOLATION_MESSAGE]) ∧
    (∀ q : Inquiry, (validateInquiry q clock).hasViolations = false →
      staticInquiryViolationStrings q clock = [NO_VIOLATION_MESSAGE]) ∧
    (∀ a : CreditAccount, ∀ v ∈ (validateAccount a clock).violations,
      v.violation ≠ NO_VIOLATION_MESSAGE) ∧
    (∀ id : String, ∀ l : List String,
      (id, l) ∈ (generateStaticViolations data clock).metro2Violations →
      NO_VIOLATION_MESSAGE ∉ l) ∧
    (∀ id : String, ∀ l : List String,
      (id, l) ∈ (generateStaticViolations data clock).fcrFdcpaViolations →
      NO_VIOLATION_MESSAGE ∉ l) ∧
    (generateStaticViolations data clock).totalViolations =
      ((((generateStaticViolations data clock).violations.map Prod.snd).flatten).filter
        (fun v => !(v == NO_VIOLATION_MESSAGE))).length := by
  have hsent : ∀ a : CreditAccount, (validateAccount a clock).hasViolations = false →
      staticAccountViolationStrings a clock = [NO_VIOLATION_MESSAGE] := by
    intro a h
    rw [validateAccount_eq] at h
    unfold staticAccountViolationStrings
    rw [validateAccount_eq]
    simp only [h, Bool.false_eq_true, if_false]
    rw [formatValidationResult_noViolationMessage_of_false h]
    rfl
  refine ⟨fun a h => ⟨hsent a h, ?_⟩, ?_, ?_, ?_, ?_, ?_, rfl⟩
  · rw [hsent a h]
    decide
  · intro r h
    rw [validatePublicRecord_eq] at h
    unfold staticRecordViolationStrings
    rw [validatePublicRecord_eq]
    simp only [h, Bool.false_eq_true, if_false]
    rw [formatValidationResult_noViolationMessage_of_false h]
    rfl
  · intro q h
    rw [validateInquiry_eq] at h
    unfold staticInquiryViolationStrings
    rw [validateInquiry_eq]
    simp only [h, Bool.false_eq_true, if_false]
    rw [formatValidationResult_noViolationMessage_of_false h]
    rfl
  · intro a v hv heq
    have hcat := accountCombined_violation_catalog (mem_combined_of_mem_validateAccount hv)
    rw [heq] at hcat
    exact sentinel_not_in_accountCatalog hcat
  · intro id l hmem hin
    rw [generateStaticViolations_metro2 data clock] at hmem
    obtain ⟨p, -, hp⟩ := List.mem_map.mp hmem
    have hl : l = ((staticItemProcessed p.2).filter (fun v => !(v == NO_VIOLATION_MESSAGE))).filter
        (fun v => jsIncludes v "Metro 2") := congrArg Prod.snd hp.symm
    rw [hl] at hin
    have h1 := (List.mem_filter.mp (List.mem_filter.mp hin).1).2
    simp at h1
  · intro id l hmem hin
    rw [generateStaticViolations_fcrFdcpa data clock] at hmem
    obtain ⟨p, -, hp⟩ := List.mem_map.mp hmem
    have hl : l = ((staticItemProcessed p.2).filter (fun v => !(v == NO_VIOLATION_MESSAGE))).filter
        (fun v => jsIncludes v "FCRA" || jsIncludes v "FDCPA") := congrArg Prod.snd hp.symm
    rw [hl] at hin
    have h1 := (List.mem_filter.mp (List.mem_filter.mp hin).1).2
    simp at h1

set_option maxRecDepth 40000 in
/-- Witness for C5 at an all-clean account and an empty report slice. -/
theorem C5_no_violation_sentinel_witness :
    staticAccountViolationStrings (default : CreditAccount) clock0 = [NO_VIOLATION_MESSAGE] ∧
    staticItemProcessed (staticAccountViolationStrings (default : CreditAccount) clock0) =
      [NO_VIOLATION_MESSAGE] :=
  (C5_no_violation_sentinel (default : CreditData) clock0).1 (default : CreditAccount) (by decide)

/-! ### Claim C1 -/

/-- A public record carrying a record key and a subscriber code but no
liability id. -/
def keyedRecord : PublicRecord :=
  { (default : PublicRecord) with recordKey := "K1", subscriberCode := "S1" }

set_option maxRecDepth 40000 in
/-- C1: the two scan modes do not derive the same item id.  For accounts the
chains agree (liability id, then the TRADE positional placeholder), but for
public records the static scan reads "@RecordKey" / "@CreditLiabilityID"
with a "PUBLIC-RECORD-00N" placeholder while the assisted scan reads
"@CreditLiabilityID" / "@_SubscriberCode" with a "record_N" placeholder, and
for inquiries the static scan reads "@InquiryKey" / "@_InquiryKey" with an
"INQUIRY-00N" placeholder while the assisted scan reads
"@_InquiryIdentifier" with an "inquiry_N" placeholder. -/
theorem C1_item_id_mode_divergence :
    staticRecordId keyedRecord 0 = "K1" ∧
    aiItemId (TaggedItem.record keyedRecord 0) 0 = "S1" ∧
    staticRecordId keyedRecord 0 ≠ aiItemId (TaggedItem.record keyedRecord 0) 0 ∧
    staticRecordId (default : PublicRecord) 0 = "PUBLIC-RECORD-001" ∧
    aiItemId (TaggedItem.record (default : PublicRecord) 0) 0 = "record_0" ∧
    staticRecordId (default : PublicRecord) 0 ≠
      aiItemId (TaggedItem.record (default : PublicRecord) 0) 0 ∧
    staticInquiryId (default : Inquiry) 0 = "INQUIRY-001" ∧
    aiItemId (TaggedItem.inquiry (default : Inquiry) 0) 0 = "inquiry_0" ∧
    staticInquiryId (default : Inquiry) 0 ≠
      aiItemId (TaggedItem.inquiry (default : Inquiry) 0) 0 ∧
    (∀ (a : CreditAccount) (i : Nat) (orig : Nat),
      staticAccountId a i = aiItemId (TaggedItem.account a orig) i) := by
  refine ⟨by decide, by decide, by decide, by decide, by decide, by decide, by decide, by decide,
    by decide, fun a i orig => rfl⟩

/-! ### Claim C2 -/

theorem charListStartsWith_nil : ∀ l : List Char, charListStartsWith l [] = true
  | [] => rfl
  | _ :: _ => rfl

theorem charListStartsWith_append : ∀ (p r : List Char), charListStartsWith (p ++ r) p = true
  | [], r => charListStartsWith_nil ([] ++ r)
  | c :: cs, r => by
    show charListStartsWith (c :: (cs ++ r)) (c :: cs) = true
    simp [charListStartsWith, charListStartsWith_append cs r]

theorem charListHasSub_of_startsWith : ∀ (l p : List Char),
    charListStartsWith l p = true → charListHasSub l p = true
  | [], _, h => h
  | _ :: _, _, h => by simp [charListHasSub, h]

/-- A marker prefix is found by String.prototype.includes. -/
theorem jsIncludes_of_append (p r : String) : jsIncludes (p ++ r) p = true := by
  unfold jsIncludes
  rw [show (p ++ r).data = p.data ++ r.data from String.data_append p r]
  exact charListHasSub_of_startsWith _ _ (charListStartsWith_append p.data r.data)

set_option maxRecDepth 40000 in
/-- C2 amended: an oversized input makes performAiScan throw an
INPUT_TOO_LARGE error; the route handler catches it and answers HTTP 413
with the error JSON (success false, top-level fallbackUsed true) rather
than a static-shaped payload. -/
theorem C2_oversized_input_throws (data : CreditData) (clock : Clock) (hasApiKey : Bool)
    (oracle : String → String → Except String (Option String))
    (h : countTokens (stringifyCreditData data) > MAX_INPUT_TOKENS) :
    (∃ msg, performAiScan data clock hasApiKey oracle = Except.error msg ∧
      jsIncludes msg "INPUT_TOO_LARGE" = true) ∧
    aiScanRouteHandler data clock hasApiKey oracle =
      AiScanHttpResponse.err 413
        ⟨false, "INPUT_TOO_LARGE",
          "Credit data is too large for AI analysis. Using static violations instead.", true⟩ := by
  have hmsg : performAiScan data clock hasApiKey oracle =
      Except.error ("INPUT_TOO_LARGE: " ++
        (Nat.repr (countTokens (stringifyCreditData data)) ++ " tokens exceeds limit")) := by
    unfold performAiScan
    rw [if_pos h]
    rw [String.append_assoc]
  have hinc : jsIncludes ("INPUT_TOO_LARGE: " ++
      (Nat.repr (countTokens (stringifyCreditData data)) ++ " tokens exceeds limit"))
      "INPUT_TOO_LARGE" = true := by
    have h2 : ("INPUT_TOO_LARGE: " : String) = "INPUT_TOO_LARGE" ++ ": " := by decide
    rw [h2, String.append_assoc]
    exact jsIncludes_of_append _ _
  refine ⟨⟨_, hmsg, hinc⟩, ?_⟩
  unfold aiScanRouteHandler
  rw [hmsg]
  simp [hinc]

/-- A pre-filtered report slice of many empty accounts whose serialization
exceeds the global token ceiling. -/
def oversizedCreditData : CreditData :=
  { creditLiability := List.replicate 150001 (default : CreditAccount),
    publicRecord := [], inquiry := [], creditResponsePublicRecord := [] }

theorem commaJoin_replicate_length (s : String) :
    ∀ n : Nat, (commaJoin (List.replicate n s)).length = n * s.length + (n - 1)
  | 0 => by simp [commaJoin]
  | 1 => by simp [commaJoin]
  | n + 2 => by
    rw [show List.replicate (n + 2) s = s :: List.replicate (n + 1) s from rfl,
      show List.replicate (n + 1) s = s :: List.replicate n s from rfl]
    show (s ++ "," ++ commaJoin (s :: List.replicate n s)).length = _
    rw [String.length_append, String.length_append,
      show (s :: List.replicate n s) = List.replicate (n + 1) s from rfl,
      commaJoin_replicate_length s (n + 1),
      show ("," : String).length = 1 from rfl]
    ring_nf
    omega

set_option maxRecDepth 40000 in
theorem oversizedCreditData_tokens :
    countTokens (stringifyCreditData oversizedCreditData) > MAX_INPUT_TOKENS := by
  have h1 : stringifyAccountJson (default : CreditAccount) = "\x7b\x7d" := by decide
  have h2 : oversizedCreditData.creditLiability.map stringifyAccountJson =
      List.replicate 150001 "\x7b\x7d" := by
    rw [show oversizedCreditData.creditLiability =
        List.replicate 150001 (default : CreditAccount) from rfl, List.map_replicate, h1]
  have h3a : (jsonArrOf (oversizedCreditData.creditLiability.map stringifyAccountJson)).length
      = (jsonArrOf (List.replicate 150001 "\x7b\x7d")).length :=
    congrArg (fun l => (jsonArrOf l).length) h2
  have h3b : (jsonArrOf (List.replicate 150001 "\x7b\x7d")).length = 450004 := by
    show ("[" ++ commaJoin (List.replicate 150001 "\x7b\x7d") ++ "]").length = 450004
    rw [String.length_append, String.length_append,
      commaJoin_replicate_length "\x7b\x7d" 150001]
    decide
  have h3 : (jsonArrOf (oversizedCreditData.creditLiability.map stringifyAccountJson)).length =
      450004 := h3a.trans h3b
  have hscd : stringifyCreditData oversizedCreditData =
      "\x7b\"CREDIT_LIABILITY\":" ++
        jsonArrOf (oversizedCreditData.creditLiability.map stringifyAccountJson) ++
        ",\"PUBLIC_RECORD\":" ++ jsonArrOf [] ++ ",\"INQUIRY\":" ++ jsonArrOf [] ++ "" ++
        "\x7d" := rfl
  have h4 : (stringifyCreditData oversizedCreditData).length = 450057 := by
    rw [hscd]
    simp only [String.length_append]
    rw [h3]
    decide
  have hfin : ∀ s : String, s.length = 450057 → countTokens s > MAX_INPUT_TOKENS := by
    intro s h
    have hd : s.data.length = 450057 := h
    show (s.data.length + 3) / 4 > MAX_INPUT_TOKENS
    rw [hd]
    decide
  exact hfin _ h4

/-- A completion oracle that always fails (its behavior is irrelevant here). -/
def failingOracle : String → String → Except String (Option String) :=
  fun _ _ => Except.error "boom"

set_option maxRecDepth 40000 in
/-- Counterexample to C2 as stated: for an oversized input the handler does
not return a static-shaped success payload with tokenInfo.fallbackUsed =
true; it returns the 413 error JSON with a top-level fallbackUsed flag. -/
theorem C2_oversized_counterexample :
    countTokens (stringifyCreditData oversizedCreditData) > MAX_INPUT_TOKENS ∧
    aiScanRouteHandler oversizedCreditData clock0 true failingOracle =
      AiScanHttpResponse.err 413
        ⟨false, "INPUT_TOO_LARGE",
          "Credit data is too large for AI analysis. Using static violations instead.", true⟩ ∧
    ¬ ∃ p : ScanPayload, aiScanRouteHandler oversizedCreditData clock0 true failingOracle =
        AiScanHttpResponse.ok p ∧ p.tokenInfo.fallbackUsed = true := by
  have h := oversizedCreditData_tokens
  have h2 := C2_oversized_input_throws oversizedCreditData clock0 true failingOracle h
  refine ⟨h, h2.2, ?_⟩
  rintro ⟨p, hp, -⟩
  rw [h2.2] at hp
  exact absurd hp (by simp)

set_option maxRecDepth 40000 in
/-- Witness for the amended C2 at the oversized input. -/
theorem C2_oversized_input_throws_witness :
    (∃ msg, performAiScan oversizedCreditData clock0 true failingOracle = Except.error msg ∧
      jsIncludes msg "INPUT_TOO_LARGE" = true) ∧
    aiScanRouteHandler oversizedCreditData clock0 true failingOracle =
      AiScanHttpResponse.err 413
        ⟨false, "INPUT_TOO_LARGE",
          "Credit data is too large for AI analysis. Using static violations instead.", true⟩ :=
  C2_oversized_input_throws oversizedCreditData clock0 true failingOracle oversizedCreditData_tokens

/-! ### C6: deduplication and category sort -/

/-- The numeric rank induced by the comparator containment bits: each
containment (Metro 2 weight 4, FCRA weight 2, FDCPA weight 1) lowers the
rank, so the comparator orders strings by this rank. -/
def rankBits (m f d : Bool) : Nat :=
  (if m then 0 else 4) + (if f then 0 else 2) + (if d then 0 else 1)

/-- Comparator rank of a suggestion string. -/
def codeRank (s : String) : Nat :=
  rankBits (jsIncludes s "Metro 2") (jsIncludes s "FCRA") (jsIncludes s "FDCPA")

theorem jsCompareBits_le_iff_rank : ∀ m1 f1 d1 m2 f2 d2 : Bool,
    jsCompareBits m1 f1 d1 m2 f2 d2 ≤ 0 ↔ rankBits m1 f1 d1 ≤ rankBits m2 f2 d2 := by decide

theorem strLE_iff_rank (a b : String) : strLE a b ↔ codeRank a ≤ codeRank b :=
  jsCompareBits_le_iff_rank _ _ _ _ _ _

theorem rankBits_lt_8 : ∀ m f d : Bool, rankBits m f d < 8 := by decide

/-- The category sort equals the concatenation of the eight comparator rank
classes in rank order, each class keeping the input order. -/
theorem insertionSort_strLE_eq_rank_flatMap (d : List String) :
    List.insertionSort strLE d =
      (List.range 8).flatMap
        (fun i => d.filter (fun s => decide (codeRank s = i))) := by
  have hs0 : (List.insertionSort strLE d).Pairwise strLE := List.sorted_insertionSort strLE d
  have hs : (List.insertionSort strLE d).Pairwise (fun a b => codeRank a ≤ codeRank b) :=
    hs0.imp (fun h => (strLE_iff_rank _ _).mp h)
  have hb : ∀ s ∈ List.insertionSort strLE d, codeRank s < 8 :=
    fun s _ => rankBits_lt_8 _ _ _
  have h1 := sorted_eq_rank_flatMap 8 codeRank (List.insertionSort strLE d) hs hb
  have h2 : ∀ i, (List.insertionSort strLE d).filter (fun s => decide (codeRank s = i)) =
      d.filter (fun s => decide (codeRank s = i)) :=
    fun i => filter_rank_insertionSort strLE codeRank strLE_iff_rank d i
  rw [h1]
  exact congrArg _ (funext (fun i => h2 i))

/-- First-match category rank, following the words of the specification:
Metro 2 strings first, then FCRA, then FDCPA, then everything else. -/
def specRankBits (m f d : Bool) : Nat :=
  if m then 0 else if f then 1 else if d then 2 else 3

/-- Specification-side rank of a string (first matching category wins). -/
def specRank (s : String) : Nat :=
  specRankBits (jsIncludes s "Metro 2") (jsIncludes s "FCRA") (jsIncludes s "FDCPA")

/-- Normalization as described by the specification, for comparison with
removeDuplicateSuggestions: trim-keyed first-wins dedup, then the stable
3-way (plus rest) partition in category order. -/
def specNormalize (l : List String) : List String :=
  (List.range 4).flatMap
    (fun i => (dedupFirstWins jsTrim l).filter (fun s => decide (specRank s = i)))

/-- A string mentioning at most one of the three category keywords. -/
def atMostOneKw (s : String) : Prop :=
  (jsIncludes s "Metro 2").toNat + (jsIncludes s "FCRA").toNat +
    (jsIncludes s "FDCPA").toNat ≤ 1

instance (s : String) : Decidable (atMostOneKw s) := by
  unfold atMostOneKw; infer_instance

theorem rank_excluded : ∀ m f d : Bool, m.toNat + f.toNat + d.toNat ≤ 1 →
    rankBits m f d ≠ 0 ∧ rankBits m f d ≠ 1 ∧ rankBits m f d ≠ 2 ∧ rankBits m f d ≠ 4 := by
  decide

theorem rank_pair : ∀ m f d : Bool, m.toNat + f.toNat + d.toNat ≤ 1 →
    ((rankBits m f d = 3 ↔ specRankBits m f d = 0) ∧
     (rankBits m f d = 5 ↔ specRankBits m f d = 1) ∧
     (rankBits m f d = 6 ↔ specRankBits m f d = 2) ∧
     (rankBits m f d = 7 ↔ specRankBits m f d = 3)) := by decide

/-- On keyword-disjoint inputs the code sort realizes the spec partition. -/
theorem sort_eq_spec_partition (d : List String) (h : ∀ s ∈ d, atMostOneKw s) :
    List.insertionSort strLE d =
      (List.range 4).flatMap (fun i => d.filter (fun s => decide (specRank s = i))) := by
  rw [insertionSort_strLE_eq_rank_flatMap]
  rw [show List.range 8 = [0, 1, 2, 3, 4, 5, 6, 7] from by decide,
    show List.range 4 = [0, 1, 2, 3] from by decide]
  simp only [List.flatMap_cons, List.flatMap_nil, List.append_nil]
  have e0 : d.filter (fun s => decide (codeRank s = 0)) = [] :=
    List.filter_eq_nil_iff.mpr (fun s hs => by
      simp only [decide_eq_true_eq]
      exact (rank_excluded _ _ _ (h s hs)).1)
  have e1 : d.filter (fun s => decide (codeRank s = 1)) = [] :=
    List.filter_eq_nil_iff.mpr (fun s hs => by
      simp only [decide_eq_true_eq]
      exact (rank_excluded _ _ _ (h s hs)).2.1)
  have e2 : d.filter (fun s => decide (codeRank s = 2)) = [] :=
    List.filter_eq_nil_iff.mpr (fun s hs => by
      simp only [decide_eq_true_eq]
      exact (rank_excluded _ _ _ (h s hs)).2.2.1)
  have e4 : d.filter (fun s => decide (codeRank s = 4)) = [] :=
    List.filter_eq_nil_iff.mpr (fun s hs => by
      simp only [decide_eq_true_eq]
      exact (rank_excluded _ _ _ (h s hs)).2.2.2)
  have m0 : d.filter (fun s => decide (codeRank s = 3)) =
      d.filter (fun s => decide (specRank s = 0)) :=
    List.filter_congr (fun s hs => decide_eq_decide.mpr ((rank_pair _ _ _ (h s hs)).1))
  have m1 : d.filter (fun s => decide (codeRank s = 5)) =
      d.filter (fun s => decide (specRank s = 1)) :=
    List.filter_congr (fun s hs => decide_eq_decide.mpr ((rank_pair _ _ _ (h s hs)).2.1))
  have m2 : d.filter (fun s => decide (codeRank s = 6)) =
      d.filter (fun s => decide (specRank s = 2)) :=
    List.filter_congr (fun s hs => decide_eq_decide.mpr ((rank_pair _ _ _ (h s hs)).2.2.1))
  have m3 : d.filter (fun s => decide (codeRank s = 7)) =
      d.filter (fun s => decide (specRank s = 3)) :=
    List.filter_congr (fun s hs => decide_eq_decide.mpr ((rank_pair _ _ _ (h s hs)).2.2.2))
  rw [e0, e1, e2, e4, m0, m1, m2, m3]
  simp

set_option maxRecDepth 40000 in
/-- C6: counterexample to the claimed stable 3-way partition.  A string
containing both "Metro 2" and "FCRA" is placed before a string containing
only "Metro 2" by the code comparator (the FCRA bit breaks the tie inside
the Metro 2 class), while the spec partition keeps both Metro 2 strings in
input order; the dedup step keeps both strings. -/
theorem C6_multi_keyword_counterexample :
    removeDuplicateSuggestions ["Metro 2", "Metro 2 FCRA"] = ["Metro 2 FCRA", "Metro 2"] ∧
    specNormalize ["Metro 2", "Metro 2 FCRA"] = ["Metro 2", "Metro 2 FCRA"] := by decide

/-- C6 (amended): on inputs in which every string mentions at most one of
the category keywords, removeDuplicateSuggestions is exactly the specified
normalization: trim-keyed first-wins dedup followed by the stable
Metro 2 / FCRA / FDCPA / rest partition preserving input order. -/
theorem C6_dedup_and_sort_amended (l : List String) (h : ∀ s ∈ l, atMostOneKw s) :
    removeDuplicateSuggestions l = specNormalize l := by
  unfold removeDuplicateSuggestions specNormalize
  rw [removeDupsByKey_eq_dedupFirstWins]
  exact sort_eq_spec_partition (dedupFirstWins jsTrim l)
    (fun s hs => h s ((keepFirstSeen_sublist jsTrim l []).subset hs))

set_option maxRecDepth 40000 in
/-- Witness for the amended C6 at a concrete keyword-disjoint input. -/
theorem C6_dedup_and_sort_amended_witness :
    (∀ s ∈ ["FCRA b", " Metro 2 a ", "Metro 2 a", "plain", "FDCPA c"], atMostOneKw s) ∧
    removeDuplicateSuggestions ["FCRA b", " Metro 2 a ", "Metro 2 a", "plain", "FDCPA c"] =
      specNormalize ["FCRA b", " Metro 2 a ", "Metro 2 a", "plain", "FDCPA c"] :=
  ⟨by decide, C6_dedup_and_sort_amended _ (by decide)⟩

/-! ### C9: per-item failure isolation and the skipped-by-size counter -/

/-- Batched processing visits every (index, item) pair exactly once, in
order: the batching is just a map over the work list. -/
theorem processInBatches_eq_map (oracle : String → String → Except String (Option String)) :
    ∀ l : List (Nat × TaggedItem), processInBatches oracle l =
      l.map (fun p => processItemWithAI oracle p.2 p.1)
  | [] => by rw [processInBatches]; rfl
  | x :: xs => by
    rw [processInBatches]
    have ih := processInBatches_eq_map oracle ((x :: xs).drop MAX_CONCURRENT_REQUESTS)
    rw [ih, ← List.map_append, List.take_append_drop]
termination_by l => l.length
decreasing_by simp [MAX_CONCURRENT_REQUESTS]; omega

/-- The skipped-by-tokens flag of a processed item is exactly the per-item
budget test on its serialized summary. -/
theorem processItemWithAI_skipped (oracle : String → String → Except String (Option String))
    (item : TaggedItem) (i : Nat) :
    (processItemWithAI oracle item i).skippedByTokens =
      decide (countTokens (itemSummaryText item i) > TOKENS_PER_ACCOUNT_LIMIT) := by
  unfold processItemWithAI
  by_cases hov : countTokens (itemSummaryText item i) > TOKENS_PER_ACCOUNT_LIMIT
  · simp [hov]
  · simp only [if_neg hov]
    cases horacle : oracle (itemTypeKey item) (itemSummaryText item i) with
    | error e => simp [horacle, hov]
    | ok o => cases o <;> simp [horacle, hov]

/-- C9: in assisted mode, a failing external call or an over-budget item
summary never aborts the scan: batching processes every item (first
conjunct), an over-budget item is recorded with zero violations and the
skip flag (second), a failed call is recorded with zero violations (third),
and the scan returns a success payload whose
tokenInfo.itemsSkippedByTokens counts exactly the over-budget items
(fourth). -/
theorem C9_item_failures_isolated (data : CreditData) (clock : Clock)
    (oracle : String → String → Except String (Option String))
    (h : ¬ countTokens (stringifyCreditData data) > MAX_INPUT_TOKENS) :
    (∀ l : List (Nat × TaggedItem), processInBatches oracle l =
        l.map (fun p => processItemWithAI oracle p.2 p.1)) ∧
    (∀ item i, countTokens (itemSummaryText item i) > TOKENS_PER_ACCOUNT_LIMIT →
        processItemWithAI oracle item i = ⟨aiItemId item i, [], false, true⟩) ∧
    (∀ item i e, ¬ countTokens (itemSummaryText item i) > TOKENS_PER_ACCOUNT_LIMIT →
        oracle (itemTypeKey item) (itemSummaryText item i) = Except.error e →
        processItemWithAI oracle item i = ⟨aiItemId item i, [], false, false⟩) ∧
    (∃ payload, performAiScan data clock true oracle = Except.ok payload ∧
        payload.tokenInfo.itemsSkippedByTokens =
          (allItemsToProcess data).enum.countP
            (fun p => decide (countTokens (itemSummaryText p.2 p.1) >
              TOKENS_PER_ACCOUNT_LIMIT))) := by
  refine ⟨processInBatches_eq_map oracle, ?_, ?_, ?_⟩
  · intro item i hov
    unfold processItemWithAI
    simp [hov]
  · intro item i e hno horacle
    unfold processItemWithAI
    simp [hno, horacle]
  · unfold performAiScan
    rw [if_neg h, if_neg (by decide : ¬ (true = false))]
    refine ⟨_, rfl, ?_⟩
    dsimp only
    rw [processInBatches_eq_map oracle]
    rw [← List.countP_eq_length_filter, List.countP_map]
    refine List.countP_congr (fun p _ => ?_)
    simp only [Function.comp]
    rw [processItemWithAI_skipped oracle p.2 p.1]

/-- A small in-budget scan input: one account and one inquiry. -/
def c9ScanData : CreditData :=
  { creditLiability := [(default : CreditAccount)], publicRecord := [],
    inquiry := [(default : Inquiry)], creditResponsePublicRecord := [] }

set_option maxRecDepth 40000 in
/-- Witness for C9 at a concrete in-budget input with an always-failing
completion oracle. -/
theorem C9_item_failures_isolated_witness :
    (¬ countTokens (stringifyCreditData c9ScanData) > MAX_INPUT_TOKENS) ∧
    ((∀ l : List (Nat × TaggedItem), processInBatches failingOracle l =
        l.map (fun p => processItemWithAI failingOracle p.2 p.1)) ∧
     (∀ item i, countTokens (itemSummaryText item i) > TOKENS_PER_ACCOUNT_LIMIT →
        processItemWithAI failingOracle item i = ⟨aiItemId item i, [], false, true⟩) ∧
     (∀ item i e, ¬ countTokens (itemSummaryText item i) > TOKENS_PER_ACCOUNT_LIMIT →
        failingOracle (itemTypeKey item) (itemSummaryText item i) = Except.error e →
        processItemWithAI failingOracle item i = ⟨aiItemId item i, [], false, false⟩) ∧
     (∃ payload, performAiScan c9ScanData clock0 true failingOracle = Except.ok payload ∧
        payload.tokenInfo.itemsSkippedByTokens =
          (allItemsToProcess c9ScanData).enum.countP
            (fun p => decide (countTokens (itemSummaryText p.2 p.1) >
              TOKENS_PER_ACCOUNT_LIMIT)))) :=
  ⟨by decide, C9_item_failures_isolated c9ScanData clock0 failingOracle (by decide)⟩
